import Mathlib

/-!
# Verification of the calendaria calendar-conversion library

This file is a shallow embedding, in Lean 4, of the calendar computations of the
calendaria TypeScript library (an adaptation of Reingold & Dershowitz,
*Calendrical Calculations*).  JavaScript numbers are modelled exactly:

* integer-valued quantities (fixed dates, calendar components) are `ℤ`;
* fractional quantities (moments, molad, equinox times) are `ℚ`;
* `Math.floor(a / b)` on integers is `Int.fdiv`, and on rationals `Int.floor`;
* the external astronomy library (astronomia) is an unspecified parameter: a
  structure `AstroLib` whose fields stand for the imported functions;
* `return null` becomes `Option.none`, and the JavaScript coercion
  `ToNumber(null) = 0` (which happens when a `null` result flows into
  arithmetic) is made explicit by `jsToNumber`.

All definitions are translated from `src/Calendars.ts` of the repository;
each one names the source function it embeds.
-/

namespace Calendars

/-- Source `_mod(a,b) = a - b * Math.floor(a/b)` on integer arguments;
`Math.floor(a/b)` is flooring division `Int.fdiv`. -/
def jsMod (a b : ℤ) : ℤ := a - b * Int.fdiv a b

/-- Source `_amod(a,b) = b + _mod(a,-b)` on integer arguments. -/
def jsAmod (a b : ℤ) : ℤ := b + jsMod a (-b)

/-- Source `_mod(a,b)` on fractional (JavaScript number) arguments. -/
def jsModQ (a b : ℚ) : ℚ := a - b * ⌊a / b⌋

/-- Source `Math.round` (half-up, toward +∞), used via `Math.round(sec*1000)`. -/
def jsRound (q : ℚ) : ℤ := ⌊q + 1/2⌋

-- ------------------------- WEEKDAYS -------------------------

/-- Source `weekdayOnOrBefore(date, k) = date - _mod(date - k, 7)`.
Dates are JavaScript numbers (possibly fractional); weekday numbers are
integers with Sunday = 0 … Saturday = 6. -/
def weekdayOnOrBefore (date : ℚ) (k : ℤ) : ℚ := date - jsModQ (date - k) 7

/-- Source `weekdayAfter(date, k) = weekdayOnOrBefore(date + 7, k)`. -/
def weekdayAfter (date : ℚ) (k : ℤ) : ℚ := weekdayOnOrBefore (date + 7) k

/-- Source `nthWeekday(n, k, date)`. -/
def nthWeekday (n : ℤ) (k : ℤ) (date : ℚ) : ℚ :=
  if 0 < n then 7*n + weekdayOnOrBefore (date - 1) k
  else 7*n + weekdayAfter date k

/-- Source `getWeekday(date) = _mod(Math.floor(date), 7)`. -/
def getWeekday (date : ℚ) : ℤ := jsMod ⌊date⌋ 7

-- ------------------------- FRACTIONAL-DAY DECOMPOSITION -------------------------

/-- Source `toArray(year, month, day)`: decomposes a fractional day into
`[year, month, wholeDay, hour, min, sec]`, rounding the seconds to millisecond
precision and cascading a carry when that rounding reaches 60 seconds. -/
def toArray (year month day : ℚ) : ℚ × ℚ × ℚ × ℚ × ℚ × ℚ :=
  let rday : ℤ := ⌊day⌋
  if (rday : ℚ) = day then (year, month, day, 0, 0, 0)
  else
    let excess := day - rday
    let elapsedHours := excess * 24
    let elapsedMinutes := excess * 24 * 60
    let elapsedSeconds := excess * 24 * 60 * 60
    let hour : ℤ := ⌊elapsedHours⌋
    let min : ℤ := ⌊elapsedMinutes - hour * 60⌋
    let sec : ℚ := elapsedSeconds - min * 60 - hour * 60 * 60
    let sec' : ℚ := (jsRound (sec * 1000) : ℚ) / 1000
    if ⌊sec'⌋ = 60 then
      if min + 1 = 60 then
        if hour + 1 = 24 then (year, month, (rday : ℚ) + 1, 0, 0, 0)
        else (year, month, (rday : ℚ), (hour : ℚ) + 1, 0, 0)
      else (year, month, (rday : ℚ), (hour : ℚ), (min : ℚ) + 1, 0)
    else (year, month, (rday : ℚ), (hour : ℚ), (min : ℚ), sec')

-- ------------------------- JULIAN DAY NUMBER -------------------------

namespace JD

/-- Source `JD.EPOCH = -1721424.5`. -/
def EPOCH : ℚ := -1721424.5

/-- Source `JD.fromFixed(date) = date - EPOCH`. -/
def fromFixed (date : ℚ) : ℚ := date - EPOCH

/-- Source `JD.toFixed(jd) = jd + EPOCH`. -/
def toFixed (jd : ℚ) : ℚ := jd + EPOCH

end JD

-- ------------------------- EGYPTIAN AND ARMENIAN -------------------------

namespace Egyptian

def EPOCH : ℤ := -272787

/-- Source `Egyptian.toFixed`. -/
def toFixed (year month day : ℤ) : ℤ :=
  EPOCH + 365 * (year - 1) + 30 * (month - 1) + day - 1

/-- Source `Egyptian.fromFixed` (integer part; see `toArray_intCast`). -/
def fromFixed (date : ℤ) : ℤ × ℤ × ℤ :=
  let days := date - EPOCH
  let year := Int.fdiv days 365 + 1
  let month := Int.fdiv (jsMod days 365) 30 + 1
  let day := days - 365 * (year - 1) - 30 * (month - 1) + 1
  (year, month, day)

end Egyptian

namespace Armenian

def EPOCH : ℤ := 201443

/-- Source `Armenian.toFixed`. -/
def toFixed (year month day : ℤ) : ℤ :=
  EPOCH + Egyptian.toFixed year month day - Egyptian.EPOCH

/-- Source `Armenian.fromFixed`. -/
def fromFixed (date : ℤ) : ℤ × ℤ × ℤ :=
  Egyptian.fromFixed (date + Egyptian.EPOCH - EPOCH)

end Armenian

-- ------------------------- GREGORIAN -------------------------

namespace Gregorian

/-- Source `Gregorian.isLeapYear`. -/
def isLeapYear (year : ℤ) : Bool :=
  decide (jsMod year 400 = 0 ∨ (jsMod year 4 = 0 ∧ jsMod year 100 ≠ 0))

/-- Source `Gregorian.toFixed`. -/
def toFixed (year month day : ℤ) : ℤ :=
  let correction : ℤ := if 2 < month then (if isLeapYear year then -1 else -2) else 0
  365 * (year - 1) + Int.fdiv (year - 1) 4
    - Int.fdiv (year - 1) 100 + Int.fdiv (year - 1) 400
    + Int.fdiv (367 * month - 362) 12 + correction + day

/-- Source `Gregorian.yearFromFixed`. -/
def yearFromFixed (date : ℤ) : ℤ :=
  let d0 := date - 1
  let n400 := Int.fdiv d0 146097
  let d1 := jsMod d0 146097
  let n100 := Int.fdiv d1 36524
  let d2 := jsMod d1 36524
  let n4 := Int.fdiv d2 1461
  let d3 := jsMod d2 1461
  let n1 := Int.fdiv d3 365
  let year := 400 * n400 + 100 * n100 + 4 * n4 + n1
  if n100 = 4 ∨ n1 = 4 then year else year + 1

/-- Source `Gregorian.fromFixed` (integer part; see `toArray_intCast`). -/
def fromFixed (date : ℤ) : ℤ × ℤ × ℤ :=
  let year := yearFromFixed date
  let priorDays := date - toFixed year 1 1
  let corr : ℤ := if date < toFixed year 3 1 then 0 else if isLeapYear year then 1 else 2
  let month := Int.fdiv (12 * (priorDays + corr) + 373) 367
  let day := date - toFixed year month 1 + 1
  (year, month, day)

end Gregorian

-- ------------------------- JULIAN -------------------------

namespace Julian

/-- Source `Julian.isLeapYear`. -/
def isLeapYear (year : ℤ) : Bool :=
  decide (jsMod year 4 = (if 0 < year then 0 else 3))

def EPOCH : ℤ := -1

/-- Source `Julian.toFixed`. -/
def toFixed (year month day : ℤ) : ℤ :=
  let y := if year < 0 then year else year - 1
  let c : ℤ := if month ≤ 2 then 0 else if isLeapYear year then -1 else -2
  EPOCH - 1 + 365 * y + Int.fdiv y 4 + Int.fdiv (367 * month - 362) 12 + c + day

/-- Source `Julian.fromFixed` (integer part; see `toArray_intCast`). -/
def fromFixed (date : ℤ) : ℤ × ℤ × ℤ :=
  let approx := Int.fdiv (4 * (date - EPOCH) + 1464) 1461
  let year := if 0 < approx then approx else approx - 1
  let priorDays := date - toFixed year 1 1
  let corr : ℤ := if date < toFixed year 3 1 then 0 else if isLeapYear year then 1 else 2
  let month := Int.fdiv (12 * (priorDays + corr) + 373) 367
  let day := date - toFixed year month 1 + 1
  (year, month, day)

end Julian

-- ------------------------- ROMAN -------------------------

namespace Roman

/-- Source enum `RomanEvent` (Kalends = 1, Nones = 2, Ides = 3). -/
inductive RomanEvent where
  | Kalends
  | Nones
  | Ides
deriving DecidableEq, Repr

/-- Source `Roman.ides(month)`. -/
def ides (month : ℤ) : ℤ :=
  if month = 3 ∨ month = 5 ∨ month = 7 ∨ month = 10 then 15 else 13

/-- Source `Roman.nones(month)`. -/
def nones (month : ℤ) : ℤ := ides month - 8

/-- Source `Roman.toFixed(year, month, event, count, leap)`. -/
def toFixed (year month : ℤ) (event : RomanEvent) (count : ℤ) (leap : Bool) : ℤ :=
  let d : ℤ :=
    match event with
    | RomanEvent.Nones => nones month
    | RomanEvent.Ides => ides month
    | RomanEvent.Kalends => 1
  let f : ℤ :=
    if Julian.isLeapYear year ∧ month = 3 ∧ event = RomanEvent.Kalends
        ∧ 6 ≤ count ∧ count ≤ 16 then 0 else 1
  let L : ℤ := if leap then 1 else 0
  Julian.toFixed year month d - count + f + L

/-- Source `Roman.fromFixed(date)`, returning the full 5-tuple
`[year, month, event, count, leap]`. -/
def fromFixed (date : ℤ) : ℤ × ℤ × RomanEvent × ℤ × Bool :=
  let j := Julian.fromFixed date
  let year := j.1
  let month := j.2.1
  let day := j.2.2
  if day = 1 then (year, month, RomanEvent.Kalends, 1, false)
  else if day ≤ nones month then
    (year, month, RomanEvent.Nones, nones month - day + 1, false)
  else if day ≤ ides month then
    (year, month, RomanEvent.Ides, ides month - day + 1, false)
  else if month ≠ 2 ∨ ¬Julian.isLeapYear year then
    let month2 := jsAmod (month + 1) 12
    let year2 : ℤ :=
      if month2 ≠ 1 then year
      else if month2 = 1 ∧ year ≠ -1 then year + 1
      else 1
    let kalends1 := toFixed year2 month2 RomanEvent.Kalends 1 false
    (year2, month2, RomanEvent.Kalends, kalends1 - date + 1, false)
  else if day < 25 then (year, 3, RomanEvent.Kalends, 30 - day, false)
  else (year, 3, RomanEvent.Kalends, 31 - day, decide (day = 25))

end Roman

-- ------------------------- COPTIC AND ETHIOPIC -------------------------

namespace Coptic

def EPOCH : ℤ := 103605

/-- Source `Coptic.isLeapYear`. -/
def isLeapYear (year : ℤ) : Bool := decide (jsMod year 4 = 3)

/-- Source `Coptic.toFixed`. -/
def toFixed (year month day : ℤ) : ℤ :=
  EPOCH - 1 + 365 * (year - 1) + Int.fdiv year 4 + 30 * (month - 1) + day

/-- Source `Coptic.fromFixed` (integer part; see `toArray_intCast`). -/
def fromFixed (date : ℤ) : ℤ × ℤ × ℤ :=
  let year := Int.fdiv (4 * (date - EPOCH) + 1463) 1461
  let month := Int.fdiv (date - toFixed year 1 1) 30 + 1
  let day := date + 1 - toFixed year month 1
  (year, month, day)

end Coptic

namespace Ethiopic

def EPOCH : ℤ := 2796

/-- Source `Ethiopic.toFixed`. -/
def toFixed (year month day : ℤ) : ℤ :=
  EPOCH + Coptic.toFixed year month day - Coptic.EPOCH

/-- Source `Ethiopic.fromFixed`. -/
def fromFixed (date : ℤ) : ℤ × ℤ × ℤ :=
  Coptic.fromFixed (date + Coptic.EPOCH - EPOCH)

end Ethiopic

-- ------------------------- ISO -------------------------

namespace ISO

/-- Source `ISO.toFixed(year, week, day)`; the weekday helpers act on
JavaScript numbers, integer-valued here. -/
def toFixed (year week day : ℤ) : ℚ :=
  nthWeekday week 0 ((Gregorian.toFixed (year - 1) 12 28 : ℚ)) + day

/-- Source `ISO.fromFixed` (integer part; see `toArray_intCast`). -/
def fromFixed (date : ℤ) : ℤ × ℤ × ℤ :=
  let approx := Gregorian.yearFromFixed (date - 3)
  let year := if (date : ℚ) ≥ toFixed (approx + 1) 1 1 then approx + 1 else approx
  let week := ⌊((date : ℚ) - toFixed year 1 1) / 7⌋ + 1
  let day := jsAmod date 7
  (year, week, day)

end ISO

-- ------------------------- ISLAMIC -------------------------

namespace Islamic

def EPOCH : ℤ := 227015

/-- Source `Islamic.isLeapYear`. -/
def isLeapYear (year : ℤ) : Bool := decide (jsMod (14 + 11 * year) 30 < 11)

/-- Source `Islamic.toFixed`. -/
def toFixed (year month day : ℤ) : ℤ :=
  day + 29 * (month - 1) + Int.fdiv (6 * month - 1) 11
    + 354 * (year - 1) + Int.fdiv (3 + 11 * year) 30 + EPOCH - 1

/-- Source `Islamic.fromFixed` (integer part; see `toArray_intCast`). -/
def fromFixed (date : ℤ) : ℤ × ℤ × ℤ :=
  let year := Int.fdiv (30 * (date - EPOCH) + 10646) 10631
  let priorDays := date - toFixed year 1 1
  let month := Int.fdiv (11 * priorDays + 330) 325
  let day := date - toFixed year month 1 + 1
  (year, month, day)

end Islamic

-- ------------------------- HEBREW -------------------------

namespace Hebrew

def EPOCH : ℤ := -1373427

def TISHRI : ℤ := 7

/-- Source `Hebrew.isLeapYear`. -/
def isLeapYear (year : ℤ) : Bool := decide (jsMod (7 * year + 1) 19 < 7)

/-- Source `Hebrew.molad(year, month)`: the mean conjunction, an exact
rational here (the source uses double-precision floats). -/
def molad (year month : ℤ) : ℚ :=
  let y := if month < TISHRI then year + 1 else year
  let monthsElapsed : ℤ := month - TISHRI + Int.fdiv (235 * y - 234) 19
  (EPOCH : ℚ) - 876/25920 + (monthsElapsed : ℚ) * (29.5 + 793/25920)

/-- Source `Hebrew.elapsedDays(year)`, including the mod-7 postponement. -/
def elapsedDays (year : ℤ) : ℤ :=
  let d := ⌊molad year TISHRI - (EPOCH : ℚ) + 1/2⌋
  if jsMod (3 * (d + 1)) 7 < 3 then d + 1 else d

/-- Source `Hebrew.newYearDelay(year)`: the delta-based dehiyyot check. -/
def newYearDelay (year : ℤ) : ℤ :=
  let ny0 := elapsedDays (year - 1)
  let ny1 := elapsedDays year
  let ny2 := elapsedDays (year + 1)
  if ny2 - ny1 = 356 then 2
  else if ny1 - ny0 = 382 then 1
  else 0

/-- Source `Hebrew.newYear(year)`. -/
def newYear (year : ℤ) : ℤ := EPOCH + elapsedDays year + newYearDelay year

/-- Source `Hebrew.daysInYear(year)`. -/
def daysInYear (year : ℤ) : ℤ := newYear (year + 1) - newYear year

/-- Source `Hebrew.isLongMarheshvan`. -/
def isLongMarheshvan (year : ℤ) : Bool :=
  decide (daysInYear year = 355 ∨ daysInYear year = 385)

/-- Source `Hebrew.isShortKislev`. -/
def isShortKislev (year : ℤ) : Bool :=
  decide (daysInYear year = 353 ∨ daysInYear year = 383)

/-- Source `Hebrew.lastDayOfMonth(year, month)`. -/
def lastDayOfMonth (year month : ℤ) : ℤ :=
  if month = 2 ∨ month = 4 ∨ month = 6 ∨ month = 10 ∨ month = 13
      ∨ (month = 12 ∧ ¬isLeapYear year)
      ∨ (month = 8 ∧ ¬isLongMarheshvan year)
      ∨ (month = 9 ∧ isShortKislev year) then 29 else 30

/-- Sum of `lastDayOfMonth year m` over the months `lo ≤ m < hi`; the source
accumulates this with `for` loops in `Hebrew.toFixed`. -/
def monthDaysSum (year lo hi : ℤ) : ℤ :=
  ((List.range (hi - lo).toNat).map (fun k => lastDayOfMonth year (lo + k))).sum

/-- Source `Hebrew.toFixed(year, month, day)`. -/
def toFixed (year month day : ℤ) : ℤ :=
  let lastMonth : ℤ := if isLeapYear year then 13 else 12
  let sum : ℤ :=
    if month < TISHRI then
      monthDaysSum year 1 month + monthDaysSum year TISHRI (lastMonth + 1)
    else monthDaysSum year TISHRI month
  newYear year + day - 1 + sum

/-- The molad arithmetic has exact denominator 25920. -/
theorem molad_tishri (y : ℤ) :
    molad y TISHRI - (EPOCH : ℚ) + 1/2 =
      ((765433 * Int.fdiv (235 * y - 234) 19 + 12084 : ℤ) : ℚ) / ((25920 : ℕ) : ℚ) := by
  rw [molad]
  norm_num [TISHRI]
  ring

/-- Integer closed form of `elapsedDays`. -/
theorem elapsedDays_eq (y : ℤ) :
    elapsedDays y =
      if jsMod (3 * ((765433 * ((235 * y - 234) / 19) + 12084) / 25920 + 1)) 7 < 3
      then (765433 * ((235 * y - 234) / 19) + 12084) / 25920 + 1
      else (765433 * ((235 * y - 234) / 19) + 12084) / 25920 := by
  have hfloor : ⌊molad y TISHRI - (EPOCH : ℚ) + 1/2⌋ =
      (765433 * ((235 * y - 234) / 19) + 12084) / 25920 := by
    rw [molad_tishri, Rat.floor_intCast_div_natCast,
      Int.fdiv_eq_ediv _ (by norm_num : (0:ℤ) ≤ 19)]
    norm_num
  simp only [elapsedDays, hfloor]

theorem newYearDelay_nonneg (y : ℤ) : 0 ≤ newYearDelay y := by
  rw [newYearDelay]
  split_ifs <;> norm_num

/-- The months-elapsed count advances by at least 12 each year. -/
theorem monthsElapsed_growth (y : ℤ) (k : ℕ) :
    (235 * y - 234) / 19 + 12 * k ≤ (235 * (y + k) - 234) / 19 := by
  induction k with
  | zero => simp
  | succ n ih =>
    have hstep : (235 * (y + n) - 234) / 19 + 12 ≤ (235 * (y + n + 1) - 234) / 19 := by
      omega
    have hc : ((n + 1 : ℕ) : ℤ) = (n : ℤ) + 1 := by push_cast; ring
    rw [hc]
    have he : 235 * (y + ((n : ℤ) + 1)) - 234 = 235 * (y + n + 1) - 234 := by ring
    rw [he]
    omega

/-- Lower bound used to show the `fromFixed` year search terminates. -/
theorem elapsedDays_lb (y : ℤ) :
    (765433 * ((235 * y - 234) / 19) + 12084) / 25920 ≤ elapsedDays y := by
  rw [elapsedDays_eq]
  split_ifs <;> omega

theorem elapsedDays_growth (y : ℤ) (k : ℕ) :
    (765433 * ((235 * y - 234) / 19) + 12084) / 25920 + 354 * k ≤ elapsedDays (y + k) := by
  have h1 := monthsElapsed_growth y k
  have h2 := elapsedDays_lb (y + k)
  have h3 : (765433 * ((235 * y - 234) / 19) + 12084) / 25920 + 354 * k
      ≤ (765433 * ((235 * (y + k) - 234) / 19) + 12084) / 25920 := by
    have hnum : 765433 * ((235 * y - 234) / 19) + 12084 + 354 * k * 25920
        ≤ 765433 * ((235 * (y + k) - 234) / 19) + 12084 := by nlinarith
    calc (765433 * ((235 * y - 234) / 19) + 12084) / 25920 + 354 * k
        = (765433 * ((235 * y - 234) / 19) + 12084 + 354 * k * 25920) / 25920 := by
          rw [Int.add_mul_ediv_right _ _ (by norm_num : (25920:ℤ) ≠ 0)]
      _ ≤ (765433 * ((235 * (y + k) - 234) / 19) + 12084) / 25920 :=
          Int.ediv_le_ediv (by norm_num) hnum
  omega

/-- The new-year day eventually passes any given date, so the year-search
loop in `Hebrew.fromFixed` terminates. -/
theorem newYear_gt_exists (date y0 : ℤ) : ∃ k : ℕ, date < newYear (y0 + k) := by
  refine ⟨(date + 1 - EPOCH - (765433 * ((235 * y0 - 234) / 19) + 12084) / 25920).toNat, ?_⟩
  set k := (date + 1 - EPOCH - (765433 * ((235 * y0 - 234) / 19) + 12084) / 25920).toNat with hk
  have hk1 : date + 1 - EPOCH - (765433 * ((235 * y0 - 234) / 19) + 12084) / 25920 ≤ (k : ℤ) :=
    Int.self_le_toNat _
  have h1 := elapsedDays_growth y0 k
  have h2 := newYearDelay_nonneg (y0 + k)
  have h3 : (0:ℤ) ≤ (k : ℤ) := Int.natCast_nonneg k
  rw [newYear]
  omega

/-- Source `Hebrew.fromFixed` (integer part; see `toArray_intCast`).  The
unbounded `for(;;)` year search of the source is the least `k` making
`newYear` pass the date (existence: `newYear_gt_exists`); the bounded
13-iteration month scan is a `List.find?` over `k < 13`. -/
def fromFixed (date : ℤ) : ℤ × ℤ × ℤ :=
  let approx := Int.fdiv ((date - EPOCH) * 98496) 35975351 + 1
  let year := approx - 2 + ((Nat.find (newYear_gt_exists date (approx - 1))) : ℤ)
  let startMonth : ℤ := if date < toFixed year 1 1 then TISHRI else 1
  let kk : ℕ := (((List.range 13).find? (fun k : ℕ =>
      decide (date ≤ toFixed year (startMonth + (k:ℤ)) (lastDayOfMonth year (startMonth + (k:ℤ))))))).getD 12
  let month := startMonth + (kk : ℤ)
  let day := date - toFixed year month 1 + 1
  (year, month, day)

end Hebrew

-- ------------------------- MAYAN -------------------------

namespace Mayan

namespace LongCount

def EPOCH : ℤ := -1137142

/-- Source `Mayan.LongCount.toFixed`. -/
def toFixed (baktun katun tun uinal kin : ℤ) : ℤ :=
  EPOCH + baktun * 144000 + katun * 7200 + tun * 360 + uinal * 20 + kin

/-- Source `Mayan.LongCount.fromFixed`. -/
def fromFixed (date : ℤ) : ℤ × ℤ × ℤ × ℤ × ℤ :=
  let longCount := date - EPOCH
  let baktun := Int.fdiv longCount 144000
  let dayOfBaktun := jsMod longCount 144000
  let katun := Int.fdiv dayOfBaktun 7200
  let dayOfKatun := jsMod dayOfBaktun 7200
  let tun := Int.fdiv dayOfKatun 360
  let dayOfTun := jsMod dayOfKatun 360
  let uinal := Int.fdiv dayOfTun 20
  let kin := jsMod dayOfTun 20
  (baktun, katun, tun, uinal, kin)

end LongCount

namespace Haab

/-- Source `Mayan.Haab.ordinal(month, day)`. -/
def ordinal (month day : ℤ) : ℤ := (month - 1) * 20 + day

def EPOCH : ℤ := LongCount.EPOCH - ordinal 18 8

/-- Source `Mayan.Haab.fromFixed`. -/
def fromFixed (date : ℤ) : ℤ × ℤ :=
  let count := jsMod (date - EPOCH) 365
  let day := jsMod count 20
  let month := Int.fdiv count 20 + 1
  (month, day)

/-- Source `Mayan.Haab.onOrBefore`. -/
def onOrBefore (haabMonth haabDay date : ℤ) : ℤ :=
  date - jsMod (date - EPOCH - ordinal haabMonth haabDay) 365

end Haab

namespace Tzolkin

/-- Source `Mayan.Tzolkin.ordinal(number, name)`. -/
def ordinal (number name : ℤ) : ℤ := jsMod (number - 1 + 39 * (number - name)) 260

def EPOCH : ℤ := LongCount.EPOCH - ordinal 4 20

/-- Source `Mayan.Tzolkin.fromFixed`. -/
def fromFixed (date : ℤ) : ℤ × ℤ :=
  let count := date - EPOCH + 1
  (jsAmod count 13, jsAmod count 20)

/-- Source `Mayan.Tzolkin.onOrBefore`. -/
def onOrBefore (tzolkinNumber tzolkinName date : ℤ) : ℤ :=
  date - jsMod (date - EPOCH - ordinal tzolkinNumber tzolkinName) 260

end Tzolkin

/-- Source `Mayan.roundOnOrBefore`: Calendar-Round reconciliation, `none`
when the congruence test fails (the source returns `null`). -/
def roundOnOrBefore (haabMonth haabDay tzolkinNumber tzolkinName date : ℤ) : Option ℤ :=
  let haabCount := Haab.ordinal haabMonth haabDay + LongCount.EPOCH
  let tzolkinCount := Tzolkin.ordinal tzolkinNumber tzolkinName + LongCount.EPOCH
  let diff := tzolkinCount - haabCount
  if jsMod diff 5 = 0 then
    some (date - jsMod (date - haabCount - 365 * diff) 18980)
  else none

end Mayan

-- ------------------------- MODIFIED FRENCH (arithmetic) -------------------------

namespace FrenchArith

/-- Source `French.EPOCH` (also used by the arithmetic variant). -/
def EPOCH : ℤ := 654415

/-- Source `French.Modified.isLeapYear`. -/
def isLeapYear (year : ℤ) : Bool :=
  decide (jsMod year 4 = 0
    ∧ jsMod year 400 ≠ 100 ∧ jsMod year 400 ≠ 200 ∧ jsMod year 400 ≠ 300
    ∧ jsMod year 4000 ≠ 0)

/-- Source `French.Modified.toFixed`. -/
def toFixed (year month day : ℤ) : ℤ :=
  EPOCH - 1 + 365 * (year - 1)
    + Int.fdiv (year - 1) 4
    - Int.fdiv (year - 1) 100
    + Int.fdiv (year - 1) 400
    - Int.fdiv (year - 1) 4000
    + 30 * (month - 1) + day

/-- Source `French.Modified.fromFixed` (integer part; see `toArray_intCast`). -/
def fromFixed (date : ℤ) : ℤ × ℤ × ℤ :=
  let approx := Int.fdiv (4000 * (date - EPOCH + 2)) 1460969 + 1
  let year := if date < toFixed approx 1 1 then approx - 1 else approx
  let month := Int.fdiv (date - toFixed year 1 1) 30 + 1
  let day := date - toFixed year month 1 + 1
  (year, month, day)

end FrenchArith

-- ------------------------- ASTRONOMY-DEPENDENT CODE (parameterised) -------------------------

/-- Source interface `Locality`. -/
structure Locality where
  latitude : ℚ
  longitude : ℚ
  elevation : ℚ
  zone : ℚ

/-- The external astronomy library (`astronomia`) together with the
transcendental `Math` functions.  The source imports these; here they are an
unspecified parameter, one field per imported function, about which nothing
is assumed.  `horizontalAlt lon lat ε φ ψ st` stands for
`new coord.Ecliptic(lon,lat).toEquatorial(ε).toHorizontal(new globe.Coord(φ,ψ), st).alt`. -/
structure AstroLib where
  pi : ℚ
  sin : ℚ → ℚ
  cos : ℚ → ℚ
  tan : ℚ → ℚ
  asin : ℚ → ℚ
  acos : ℚ → ℚ
  solarDec : ℚ → ℚ
  eqOfTime : ℚ → ℚ
  moonLon : ℚ → ℚ
  moonLat : ℚ → ℚ
  solarTrueLon : ℚ → ℚ
  solarTrue2000Lon : ℚ → ℚ
  j2000Century : ℚ → ℚ
  meanObliquity : ℚ → ℚ
  siderealApparent : ℚ → ℚ
  horizontalAlt : ℚ → ℚ → ℚ → ℚ → ℚ → ℚ → ℚ
  meanSynodicMonth : ℚ
  solsticeMarch : ℤ → ℚ
  solsticeSeptember : ℤ → ℚ

/-- Source `D2R = Math.PI / 180`. -/
def D2R (lib : AstroLib) : ℚ := lib.pi / 180

/-- JavaScript `ToNumber` applied to a possibly-`null` number: `null` becomes `0`.
This is what happens when a `null` return value flows into arithmetic. -/
def jsToNumber (x : Option ℚ) : ℚ := x.getD 0

namespace Time

/-- Source `Time.universalFromLocal`. -/
def universalFromLocal (t : ℚ) (locale : Locality) : ℚ := t - locale.longitude / 360

/-- Source `Time.localFromUniversal`. -/
def localFromUniversal (t : ℚ) (locale : Locality) : ℚ := t + locale.longitude / 360

/-- Source `Time.standardFromUniversal`. -/
def standardFromUniversal (t : ℚ) (locale : Locality) : ℚ := t + locale.zone / 24

/-- Source `Time.universalFromStandard`. -/
def universalFromStandard (t : ℚ) (locale : Locality) : ℚ := t - locale.zone / 24

/-- Source `Time.standardFromLocal`. -/
def standardFromLocal (t : ℚ) (locale : Locality) : ℚ :=
  standardFromUniversal (universalFromLocal t locale) locale

/-- Source `Time.localFromStandard`. -/
def localFromStandard (t : ℚ) (locale : Locality) : ℚ :=
  localFromUniversal (universalFromStandard t locale) locale

/-- Source `Time.apparentFromLocal`. -/
def apparentFromLocal (lib : AstroLib) (t : ℚ) : ℚ :=
  t + lib.eqOfTime (JD.fromFixed t) / (2 * lib.pi)

/-- Source `Time.localFromApparent`. -/
def localFromApparent (lib : AstroLib) (t : ℚ) : ℚ :=
  t - lib.eqOfTime (JD.fromFixed t) / (2 * lib.pi)

/-- Source `Time.midnight`. -/
def midnight (lib : AstroLib) (date : ℚ) (locale : Locality) : ℚ :=
  standardFromLocal (localFromApparent lib (⌊date⌋ : ℚ)) locale

/-- Source `Time.midday`. -/
def midday (lib : AstroLib) (date : ℚ) (locale : Locality) : ℚ :=
  standardFromLocal (localFromApparent lib ((⌊date⌋ : ℚ) + 1/2)) locale

end Time

/-- Source `_vernalEquinoxOnOrBefore` (always called on integer dates). -/
def vernalEquinoxOnOrBefore (lib : AstroLib) (date : ℤ) : ℚ :=
  let year := Gregorian.yearFromFixed date
  let spring := JD.toFixed (lib.solsticeMarch year)
  if spring > (date : ℚ) then JD.toFixed (lib.solsticeMarch (year - 1)) else spring

/-- Source `_autumnalEquinoxOnOrBefore` (always called on integer dates). -/
def autumnalEquinoxOnOrBefore (lib : AstroLib) (date : ℤ) : ℚ :=
  let year := Gregorian.yearFromFixed date
  let autumn := JD.toFixed (lib.solsticeSeptember year)
  if autumn > (date : ℚ) then JD.toFixed (lib.solsticeSeptember (year - 1)) else autumn

/-- The `sineOffset` local constant of source `momentFromDepression`. -/
def sineOffset (lib : AstroLib) (approx : ℚ) (locale : Locality) (angle : ℚ) : ℚ :=
  let t := Time.universalFromLocal approx locale
  let δ := lib.solarDec (JD.fromFixed t)
  lib.tan (locale.latitude * D2R lib) * lib.tan δ
    + lib.sin (angle * D2R lib) / (lib.cos δ * lib.cos (locale.latitude * D2R lib))

/-- Source `momentFromDepression`; `return null` is `none`. -/
def momentFromDepression (lib : AstroLib) (approx : ℚ) (locale : Locality) (angle : ℚ) :
    Option ℚ :=
  let morning : ℚ := if jsModQ approx 1 < 1/2 then -1 else 1
  let s := sineOffset lib approx locale angle
  if 1 < |s| then none
  else some (Time.localFromApparent lib ((⌊approx⌋ : ℚ) + 1/2
    + morning * (jsModQ (1/2 + lib.asin s / (2 * lib.pi)) 1 - 1/4)))

/-- Source `dawn`: first pass at `date + 0.25`, with fallback seed `date`
when the first pass returns `null`; `null` from the second pass propagates. -/
def dawn (lib : AstroLib) (date : ℚ) (locale : Locality) (angle : ℚ) : Option ℚ :=
  let approx := momentFromDepression lib (date + 1/4) locale angle
  let x := approx.getD date
  (momentFromDepression lib x locale angle).map (fun r => Time.standardFromLocal r locale)

/-- Source `dusk`: first pass at `date + 0.75`, with fallback seed `date + 0.99`
when the first pass returns `null`; `null` from the second pass propagates. -/
def dusk (lib : AstroLib) (date : ℚ) (locale : Locality) (angle : ℚ) : Option ℚ :=
  let approx := momentFromDepression lib (date + 3/4) locale angle
  let x := approx.getD (date + 99/100)
  (momentFromDepression lib x locale angle).map (fun r => Time.standardFromLocal r locale)

namespace Astronomy

/-- Source `Astronomy.MEAN_TROPICAL_YEAR = 365.242189`. -/
def MEAN_TROPICAL_YEAR : ℚ := 365.242189

/-- Source `Astronomy.isCrescentVisible`.  The dusk of the previous day is fed
into `Time.universalFromStandard` without a `null` check: in JavaScript a
`null` operand of `-` is coerced to `0`, hence `jsToNumber`. -/
def isCrescentVisible (lib : AstroLib) (date : ℚ) (locale : Locality) : Bool :=
  let t := Time.universalFromStandard (jsToNumber (dusk lib (date - 1) locale 4.5)) locale
  let jde := JD.fromFixed t
  let lunarLon := lib.moonLon jde
  let lunarLat := lib.moonLat jde
  let solarLon := lib.solarTrueLon (lib.j2000Century jde)
  let phase := jsModQ (lunarLon - solarLon) (2 * lib.pi)
  let ε := lib.meanObliquity jde
  let st := lib.siderealApparent jde
  let lunarAltitude := lib.horizontalAlt lunarLon lunarLat ε
    (locale.latitude * D2R lib) (-locale.longitude * D2R lib) st
  let arcOfLight := lib.acos (lib.cos lunarLat * lib.cos phase)
  decide (0 < phase ∧ phase < 90 * D2R lib
    ∧ 10.6 * D2R lib ≤ arcOfLight ∧ arcOfLight ≤ 90 * D2R lib
    ∧ lunarAltitude > 4.1 * D2R lib)

/-- The value of the local `tau` of source `phasisOnOrBefore`: the mean-new-moon
based start of the 30-day search window, shifted 30 days earlier when the date
sits within 3 days after the mean new moon without a visible crescent. -/
def phasisTau (lib : AstroLib) (date : ℤ) (locale : Locality) : ℤ :=
  let jde := JD.fromFixed ((date : ℚ) + 1)
  let phase := jsModQ (lib.moonLon jde - lib.solarTrue2000Lon (lib.j2000Century jde))
    (2 * lib.pi) / (2 * lib.pi)
  let mean := date - ⌊lib.meanSynodicMonth * phase⌋
  if date - mean ≤ 3 ∧ isCrescentVisible lib (date : ℚ) locale = false then mean - 30
  else mean - 2

/-- The `for` loop of source `phasisOnOrBefore`: starting from `crescent = tau + i`,
return the first visible candidate, or `tau + 29` (the loop's final assignment)
when none of the 30 candidates is visible. -/
def crescentLoop (lib : AstroLib) (locale : Locality) (tau : ℤ) (i : ℕ) : ℤ :=
  if i < 29 then
    if isCrescentVisible lib ((tau : ℚ) + (i : ℕ)) locale then tau + (i : ℕ)
    else crescentLoop lib locale tau (i + 1)
  else tau + 29
termination_by 29 - i

/-- Source `Astronomy.phasisOnOrBefore`. -/
def phasisOnOrBefore (lib : AstroLib) (date : ℤ) (locale : Locality) : ℤ :=
  crescentLoop lib locale (phasisTau lib date locale) 0

end Astronomy

-- ------------------------- PERSIAN -------------------------

namespace Persian

def EPOCH : ℤ := 226896

/-- Source `Persian.TEHRAN`. -/
def TEHRAN : Locality := { latitude := 35.68, longitude := 51.42, elevation := 1100, zone := 3.5 }

/-- Source `Persian.middayInTehran`. -/
def middayInTehran (lib : AstroLib) (date : ℚ) : ℚ :=
  Time.universalFromStandard (Time.midday lib date TEHRAN) TEHRAN

/-- Source `Persian.newYearOnOrBefore`. -/
def newYearOnOrBefore (lib : AstroLib) (date : ℤ) : ℤ :=
  let previousEquinox := vernalEquinoxOnOrBefore lib (date + 1)
  if previousEquinox < middayInTehran lib previousEquinox then ⌊previousEquinox⌋
  else ⌊previousEquinox⌋ + 1

/-- Source `Persian.toFixed`. -/
def toFixed (lib : AstroLib) (year month day : ℤ) : ℤ :=
  let y' := if 0 < year then year - 1 else year
  let newYear := newYearOnOrBefore lib (EPOCH + 180 + ⌊Astronomy.MEAN_TROPICAL_YEAR * (y' : ℚ)⌋)
  let m' := if 7 < month then 30 * (month - 1) + 6 else 31 * (month - 1)
  newYear - 1 + m' + day

/-- Source `Persian.fromFixed` (integer part; see `toArray_intCast`). -/
def fromFixed (lib : AstroLib) (date : ℤ) : ℤ × ℤ × ℤ :=
  let newYear := newYearOnOrBefore lib date
  let y := jsRound (((newYear - EPOCH : ℤ) : ℚ) / Astronomy.MEAN_TROPICAL_YEAR) + 1
  let year := if 0 < y then y else y - 1
  let dayOfYear := date - toFixed lib year 1 1 + 1
  if dayOfYear = 1 then (year, 1, dayOfYear)
  else
    let month := if 186 < dayOfYear then ⌈((dayOfYear : ℚ) - 6) / 30⌉ else ⌈(dayOfYear : ℚ) / 31⌉
    let day := date - toFixed lib year month 1 + 1
    (year, month, day)

end Persian

-- ------------------------- FRENCH (astronomical) -------------------------

namespace French

def EPOCH : ℤ := 654415

/-- Source `French.PARIS`. -/
def PARIS : Locality :=
  { latitude := 48 + 50/60 + 11/3600, longitude := 2 + 20/60 + 14/3600, elevation := 27, zone := 1 }

/-- Source `French.midnightInParis`. -/
def midnightInParis (lib : AstroLib) (date : ℚ) : ℚ :=
  Time.universalFromStandard (Time.midnight lib (date + 1) PARIS) PARIS

/-- Source `French.newYearOnOrBefore`. -/
def newYearOnOrBefore (lib : AstroLib) (date : ℤ) : ℤ :=
  let previousEquinox := autumnalEquinoxOnOrBefore lib (date + 1)
  if previousEquinox < midnightInParis lib previousEquinox then ⌊previousEquinox⌋
  else ⌊previousEquinox⌋ + 1

/-- Source `French.toFixed`. -/
def toFixed (lib : AstroLib) (year month day : ℤ) : ℤ :=
  let newYear := newYearOnOrBefore lib
    ⌊(EPOCH : ℚ) + 180 + Astronomy.MEAN_TROPICAL_YEAR * ((year : ℚ) - 1)⌋
  newYear - 1 + 30 * (month - 1) + day

/-- Source `French.fromFixed` (integer part; see `toArray_intCast`). -/
def fromFixed (lib : AstroLib) (date : ℤ) : ℤ × ℤ × ℤ :=
  let newYear := newYearOnOrBefore lib date
  let year := jsRound (((newYear - EPOCH : ℤ) : ℚ) / Astronomy.MEAN_TROPICAL_YEAR) + 1
  let month := Int.fdiv (date - newYear) 30 + 1
  let day := jsMod (date - newYear) 30 + 1
  (year, month, day)

end French

-- ------------------------- FIXTURE EPHEMERIDES -------------------------

/-- A constant fixture ephemeris for instantiating the parameterised
astronomy code: every imported function returns `0` (`cos` returns `1`),
and `π` is modelled as `180`, making `D2R` equal to `1`. -/
def zeroLib : AstroLib where
  pi := 180
  sin := fun _ => 0
  cos := fun _ => 1
  tan := fun _ => 0
  asin := fun _ => 0
  acos := fun _ => 0
  solarDec := fun _ => 0
  eqOfTime := fun _ => 0
  moonLon := fun _ => 0
  moonLat := fun _ => 0
  solarTrueLon := fun _ => 0
  solarTrue2000Lon := fun _ => 0
  j2000Century := fun _ => 0
  meanObliquity := fun _ => 0
  siderealApparent := fun _ => 0
  horizontalAlt := fun _ _ _ _ _ _ => 0
  meanSynodicMonth := 30
  solsticeMarch := fun _ => 0
  solsticeSeptember := fun _ => 0

/-- A fixture locality at latitude 0, longitude 0, elevation 0, zone 0. -/
def locale0 : Locality := ⟨0, 0, 0, 0⟩

/-- A fixture ephemeris whose `Math.sin` is constantly `2`: the sine offset
is `2` everywhere, the polar-night case. -/
def polarLib : AstroLib := { zeroLib with sin := fun _ => 2 }

/-- A fixture ephemeris under which every dusk is in polar night (`sin = 2`)
while the crescent criteria all pass: the moon sits at longitude 1 radian,
the arc of light is 20 degrees and the lunar altitude 5 degrees. -/
def visLib : AstroLib :=
  { zeroLib with
      sin := fun _ => 2
      moonLon := fun _ => 1
      acos := fun _ => 20
      horizontalAlt := fun _ _ _ _ _ _ => 5 }

/-- Like `visLib` but with the moon at altitude 0, failing the altitude
criterion. -/
def visLib0 : AstroLib := { visLib with horizontalAlt := fun _ _ _ _ _ _ => 0 }

/-- A fixture ephemeris whose September solstice is constantly at fixed
date 100 (Julian day 1721524.5). -/
def constLib : AstroLib := { zeroLib with solsticeSeptember := fun _ => 1721524.5 }

/-- A fixture ephemeris whose solar declination is the Julian day itself and
whose cosine dips to `1/2` exactly at the first-pass JD of `dawn 0`: the first
depression pass fails, the fallback pass succeeds. -/
def stepLib : AstroLib :=
  { zeroLib with
      solarDec := fun t => t
      sin := fun _ => 1
      cos := fun x => if x = 1721424.75 then 1/2 else 1 }

-- ------------------------- UTILITY LEMMAS -------------------------

theorem jsMod_eq_emod (a b : ℤ) (h : 0 ≤ b) : jsMod a b = a % b := by
  rw [jsMod, Int.fdiv_eq_ediv a h, Int.emod_def]

theorem fdiv_neg_right (a b : ℤ) : a.fdiv (-b) = (-a).fdiv b := by
  rcases a with (_|m)|m <;> rcases b with (_|n)|n <;> first | rfl | simp

/-- The adjusted modulus with modulus 7 is a 1-based remainder. -/
theorem jsAmod_seven (a : ℤ) : jsAmod a 7 = (a - 1) % 7 + 1 := by
  rw [jsAmod, jsMod, fdiv_neg_right, Int.fdiv_eq_ediv (-a) (by norm_num)]
  omega

/-- The adjusted modulus with modulus 12 is a 1-based remainder. -/
theorem jsAmod_twelve (a : ℤ) : jsAmod a 12 = (a - 1) % 12 + 1 := by
  rw [jsAmod, jsMod, fdiv_neg_right, Int.fdiv_eq_ediv (-a) (by norm_num)]
  omega

theorem jsModQ_nonneg (a b : ℚ) (h : 0 < b) : 0 ≤ jsModQ a b := by
  rw [jsModQ]
  have h2 : (⌊a / b⌋ : ℚ) * b ≤ a := by
    rw [← le_div_iff₀ h]
    exact Int.floor_le (a / b)
  linarith

theorem jsModQ_lt (a b : ℚ) (h : 0 < b) : jsModQ a b < b := by
  rw [jsModQ]
  have h2 : a < ((⌊a / b⌋ : ℚ) + 1) * b := by
    rw [← div_lt_iff₀ h]
    exact Int.lt_floor_add_one (a / b)
  linarith

/-- `jsModQ` on integer arguments agrees with the integer `jsMod`. -/
theorem jsModQ_intCast (a b : ℤ) (h : 0 < b) :
    jsModQ (a : ℚ) (b : ℚ) = ((jsMod a b : ℤ) : ℚ) := by
  rw [jsModQ, jsMod, Int.fdiv_eq_ediv a (le_of_lt h)]
  have hb : ((b : ℚ)) ≠ 0 := by exact_mod_cast h.ne'
  have : ⌊(a : ℚ) / (b : ℚ)⌋ = a / b := by
    rcases Int.eq_ofNat_of_zero_le (le_of_lt h) with ⟨n, rfl⟩
    exact_mod_cast Rat.floor_intCast_div_natCast a n
  rw [this]
  push_cast
  ring

/-- On an integer day the decomposition is trivial, so the integer-valued
`fromFixed` functions below return plain integer triples. -/
theorem toArray_intCast (year month : ℚ) (d : ℤ) :
    toArray year month (d : ℚ) = (year, month, (d : ℚ), 0, 0, 0) := by
  rw [toArray]
  simp

-- ------------------------- ROUND-TRIP LEMMAS (arithmetic calendars) -------------------------

theorem egyptian_toFixed_fromFixed (d : ℤ) :
    Egyptian.toFixed (Egyptian.fromFixed d).1 (Egyptian.fromFixed d).2.1
      (Egyptian.fromFixed d).2.2 = d := by
  simp only [Egyptian.fromFixed, Egyptian.toFixed]
  ring

theorem armenian_toFixed_fromFixed (d : ℤ) :
    Armenian.toFixed (Armenian.fromFixed d).1 (Armenian.fromFixed d).2.1
      (Armenian.fromFixed d).2.2 = d := by
  simp only [Armenian.fromFixed, Armenian.toFixed]
  rw [egyptian_toFixed_fromFixed]
  ring

theorem gregorian_toFixed_day (y m d : ℤ) :
    Gregorian.toFixed y m d = Gregorian.toFixed y m 1 + d - 1 := by
  simp only [Gregorian.toFixed]
  ring

theorem gregorian_toFixed_fromFixed (d : ℤ) :
    Gregorian.toFixed (Gregorian.fromFixed d).1 (Gregorian.fromFixed d).2.1
      (Gregorian.fromFixed d).2.2 = d := by
  simp only [Gregorian.fromFixed]
  rw [gregorian_toFixed_day]
  ring

theorem julian_toFixed_day (y m d : ℤ) :
    Julian.toFixed y m d = Julian.toFixed y m 1 + d - 1 := by
  simp only [Julian.toFixed]
  ring

theorem julian_toFixed_fromFixed (d : ℤ) :
    Julian.toFixed (Julian.fromFixed d).1 (Julian.fromFixed d).2.1
      (Julian.fromFixed d).2.2 = d := by
  simp only [Julian.fromFixed]
  rw [julian_toFixed_day]
  ring

theorem coptic_toFixed_day (y m d : ℤ) :
    Coptic.toFixed y m d = Coptic.toFixed y m 1 + d - 1 := by
  simp only [Coptic.toFixed]
  ring

theorem coptic_toFixed_fromFixed (d : ℤ) :
    Coptic.toFixed (Coptic.fromFixed d).1 (Coptic.fromFixed d).2.1
      (Coptic.fromFixed d).2.2 = d := by
  simp only [Coptic.fromFixed]
  rw [coptic_toFixed_day]
  ring

theorem ethiopic_toFixed_fromFixed (d : ℤ) :
    Ethiopic.toFixed (Ethiopic.fromFixed d).1 (Ethiopic.fromFixed d).2.1
      (Ethiopic.fromFixed d).2.2 = d := by
  simp only [Ethiopic.fromFixed, Ethiopic.toFixed]
  rw [coptic_toFixed_fromFixed]
  ring

theorem islamic_toFixed_day (y m d : ℤ) :
    Islamic.toFixed y m d = Islamic.toFixed y m 1 + d - 1 := by
  simp only [Islamic.toFixed]
  ring

theorem islamic_toFixed_fromFixed (d : ℤ) :
    Islamic.toFixed (Islamic.fromFixed d).1 (Islamic.fromFixed d).2.1
      (Islamic.fromFixed d).2.2 = d := by
  simp only [Islamic.fromFixed]
  rw [islamic_toFixed_day]
  ring

theorem hebrew_toFixed_day (y m d : ℤ) :
    Hebrew.toFixed y m d = Hebrew.toFixed y m 1 + d - 1 := by
  simp only [Hebrew.toFixed]
  ring

theorem hebrew_toFixed_fromFixed (d : ℤ) :
    Hebrew.toFixed (Hebrew.fromFixed d).1 (Hebrew.fromFixed d).2.1
      (Hebrew.fromFixed d).2.2 = d := by
  simp only [Hebrew.fromFixed]
  rw [hebrew_toFixed_day]
  ring

theorem frenchArith_toFixed_day (y m d : ℤ) :
    FrenchArith.toFixed y m d = FrenchArith.toFixed y m 1 + d - 1 := by
  simp only [FrenchArith.toFixed]
  ring

theorem frenchArith_toFixed_fromFixed (d : ℤ) :
    FrenchArith.toFixed (FrenchArith.fromFixed d).1 (FrenchArith.fromFixed d).2.1
      (FrenchArith.fromFixed d).2.2 = d := by
  simp only [FrenchArith.fromFixed]
  rw [frenchArith_toFixed_day]
  ring

theorem longCount_toFixed_fromFixed (d : ℤ) :
    Mayan.LongCount.toFixed (Mayan.LongCount.fromFixed d).1 (Mayan.LongCount.fromFixed d).2.1
      (Mayan.LongCount.fromFixed d).2.2.1 (Mayan.LongCount.fromFixed d).2.2.2.1
      (Mayan.LongCount.fromFixed d).2.2.2.2 = d := by
  simp only [Mayan.LongCount.fromFixed, Mayan.LongCount.toFixed, jsMod]
  rw [Int.fdiv_eq_ediv _ (by norm_num : (0:ℤ) ≤ 144000)]
  rw [Int.fdiv_eq_ediv _ (by norm_num : (0:ℤ) ≤ 7200)]
  rw [Int.fdiv_eq_ediv _ (by norm_num : (0:ℤ) ≤ 360)]
  rw [Int.fdiv_eq_ediv _ (by norm_num : (0:ℤ) ≤ 20)]
  ring

-- ------------------------- GREGORIAN YEAR BOUNDS -------------------------

/-- Closed form of `Gregorian.toFixed y 1 1` with Euclidean division. -/
theorem gregorian_jan1_closed (y : ℤ) :
    Gregorian.toFixed y 1 1 = 365*(y-1) + (y-1)/4 - (y-1)/100 + (y-1)/400 + 1 := by
  simp only [Gregorian.toFixed]
  norm_num
  rw [Int.fdiv_eq_ediv _ (by norm_num : (0:ℤ) ≤ 4),
    Int.fdiv_eq_ediv _ (by norm_num : (0:ℤ) ≤ 100),
    Int.fdiv_eq_ediv _ (by norm_num : (0:ℤ) ≤ 400),
    show Int.fdiv (5:ℤ) 12 = 0 from by decide]
  ring

/-- Closed form of `Gregorian.yearFromFixed` with Euclidean division. -/
theorem Gregorian.yearFromFixed_eq (date : ℤ) :
    Gregorian.yearFromFixed date =
      400*((date-1)/146097) + 100*((date-1)%146097/36524)
        + 4*((date-1)%146097%36524/1461) + (date-1)%146097%36524%1461/365
        + (if (date-1)%146097/36524 = 4 ∨ (date-1)%146097%36524%1461/365 = 4
           then 0 else 1) := by
  simp only [Gregorian.yearFromFixed, jsMod]
  rw [Int.fdiv_eq_ediv _ (by norm_num : (0:ℤ) ≤ 146097)]
  rw [← Int.emod_def (date - 1) 146097]
  rw [Int.fdiv_eq_ediv _ (by norm_num : (0:ℤ) ≤ 36524)]
  rw [← Int.emod_def ((date - 1) % 146097) 36524]
  rw [Int.fdiv_eq_ediv _ (by norm_num : (0:ℤ) ≤ 1461)]
  rw [← Int.emod_def ((date - 1) % 146097 % 36524) 1461]
  rw [Int.fdiv_eq_ediv _ (by norm_num : (0:ℤ) ≤ 365)]
  split_ifs <;> ring

theorem gregorian_bounds_arith (date n400 n100 n4 n1 r1 r2 r3 r4 year : ℤ)
    (h1 : date - 1 = 146097*n400 + r1) (h1b : 0 ≤ r1) (h1c : r1 < 146097)
    (h2 : r1 = 36524*n100 + r2) (h2b : 0 ≤ r2) (h2c : r2 < 36524)
    (h3 : r2 = 1461*n4 + r3) (h3b : 0 ≤ r3) (h3c : r3 < 1461)
    (h4 : r3 = 365*n1 + r4) (h4b : 0 ≤ r4) (h4c : r4 < 365)
    (hyear : year = 400*n400 + 100*n100 + 4*n4 + n1 + (if n100 = 4 ∨ n1 = 4 then 0 else 1)) :
    365*(year-1) + (year-1)/4 - (year-1)/100 + (year-1)/400 + 1 ≤ date ∧
    date < 365*year + year/4 - year/100 + year/400 + 1 := by
  split_ifs at hyear with hc
  · rcases hc with hc | hc
    · have e0 : r2 = 0 := by omega
      have e1 : n4 = 0 := by omega
      have e2 : n1 = 0 := by omega
      have hA1 : (year - 1)/4 = 100*n400 + 99 := by omega
      have hA2 : (year - 1)/100 = 4*n400 + 3 := by omega
      have hA3 : (year - 1)/400 = n400 := by omega
      have hA4 : year/4 = 100*n400 + 100 := by omega
      have hA5 : year/100 = 4*n400 + 4 := by omega
      have hA6 : year/400 = n400 + 1 := by omega
      omega
    · have e0 : r4 = 0 := by omega
      have e1 : r3 = 1460 := by omega
      have e2 : n100 ≤ 3 := by omega
      have e3 : n4 ≤ 23 := by omega
      have hB1 : (year-1)/4 = 100*n400 + 25*n100 + n4 := by omega
      have hB2 : (year-1)/100 = 4*n400 + n100 := by omega
      have hB3 : (year-1)/400 = n400 := by omega
      have hB4 : year/4 = 100*n400 + 25*n100 + n4 + 1 := by omega
      have hB5 : year/100 = 4*n400 + n100 := by omega
      have hB6 : year/400 = n400 := by omega
      omega
  · have e1 : n100 ≤ 3 := by omega
    have e2 : n1 ≤ 3 := by omega
    have e3 : n4 ≤ 24 := by omega
    have hC1 : (year-1)/4 = 100*n400 + 25*n100 + n4 := by omega
    have hC2 : (year-1)/100 = 4*n400 + n100 := by omega
    have hC3 : (year-1)/400 = n400 := by omega
    have hC4 : year/4 = 100*n400 + 25*n100 + n4 + (n1+1)/4 := by omega
    have hC5 : year/100 = 4*n400 + n100 + (4*n4 + n1 + 1)/100 := by omega
    have hC6 : year/400 = n400 + (100*n100 + 4*n4 + n1 + 1)/400 := by omega
    omega

/-- The year computed by `Gregorian.yearFromFixed` brackets the date between
its January 1 and the next year's January 1. -/
theorem Gregorian.yearFromFixed_bounds (date : ℤ) :
    Gregorian.toFixed (Gregorian.yearFromFixed date) 1 1 ≤ date ∧
    date < Gregorian.toFixed (Gregorian.yearFromFixed date + 1) 1 1 := by
  have hy := Gregorian.yearFromFixed_eq date
  rw [gregorian_jan1_closed, gregorian_jan1_closed, hy]
  have hs : 400*((date-1)/146097) + 100*((date-1)%146097/36524)
        + 4*((date-1)%146097%36524/1461) + (date-1)%146097%36524%1461/365
        + (if (date-1)%146097/36524 = 4 ∨ (date-1)%146097%36524%1461/365 = 4
           then 0 else 1) + 1 - 1
      = 400*((date-1)/146097) + 100*((date-1)%146097/36524)
        + 4*((date-1)%146097%36524/1461) + (date-1)%146097%36524%1461/365
        + (if (date-1)%146097/36524 = 4 ∨ (date-1)%146097%36524%1461/365 = 4
           then 0 else 1) := by ring
  rw [hs]
  exact gregorian_bounds_arith date
    ((date-1)/146097) ((date-1)%146097/36524)
    ((date-1)%146097%36524/1461) ((date-1)%146097%36524%1461/365)
    ((date-1)%146097) ((date-1)%146097%36524)
    ((date-1)%146097%36524%1461) ((date-1)%146097%36524%1461%365) _
    (by omega) (Int.emod_nonneg _ (by norm_num)) (Int.emod_lt_of_pos _ (by norm_num))
    (by omega) (Int.emod_nonneg _ (by norm_num)) (Int.emod_lt_of_pos _ (by norm_num))
    (by omega) (Int.emod_nonneg _ (by norm_num)) (Int.emod_lt_of_pos _ (by norm_num))
    (by omega) (Int.emod_nonneg _ (by norm_num)) (Int.emod_lt_of_pos _ (by norm_num))
    rfl

-- ------------------------- JULIAN YEAR AND MONTH BOUNDS -------------------------

theorem Julian.isLeapYear_iff (y : ℤ) :
    Julian.isLeapYear y = true ↔ y % 4 = (if 0 < y then 0 else 3) := by
  simp only [Julian.isLeapYear, decide_eq_true_eq,
    jsMod_eq_emod _ _ (by norm_num : (0:ℤ) ≤ 4)]

/-- Closed form of `Julian.toFixed y 1 1`. -/
theorem julian_jan1_closed (y : ℤ) :
    Julian.toFixed y 1 1 =
      365*(if y < 0 then y else y - 1) + (if y < 0 then y else y - 1)/4 - 1 := by
  simp only [Julian.toFixed, Julian.EPOCH]
  norm_num
  rw [Int.fdiv_eq_ediv _ (by norm_num : (0:ℤ) ≤ 4),
    show Int.fdiv (5:ℤ) 12 = 0 from by decide]
  ring

/-- March 1 is 59 (plus a leap day) after January 1 in the Julian calendar. -/
theorem Julian.mar1_closed (y : ℤ) :
    Julian.toFixed y 3 1 =
      Julian.toFixed y 1 1 + 59 + (if Julian.isLeapYear y then 1 else 0) := by
  simp only [Julian.toFixed, Julian.EPOCH]
  norm_num
  rw [show Int.fdiv (739:ℤ) 12 = 61 from by decide,
    show Int.fdiv (5:ℤ) 12 = 0 from by decide]
  split_ifs <;> ring

/-- In a Julian leap year, March 1 sits `30 - day` after February `day`. -/
theorem Julian.mar1_sub_feb (y dd : ℤ) (h : Julian.isLeapYear y = true) :
    Julian.toFixed y 3 1 = Julian.toFixed y 2 dd + 30 - dd := by
  simp only [Julian.toFixed, Julian.EPOCH, h]
  norm_num
  rw [show Int.fdiv (739:ℤ) 12 = 61 from by decide,
    show Int.fdiv (372:ℤ) 12 = 31 from by decide]
  ring

theorem julian_bounds_arith (date q year : ℤ)
    (hq : 1461*q ≤ 4*date + 1468) (hq2 : 4*date + 1468 < 1461*q + 1461)
    (hyear : year = if 0 < q then q else q - 1) :
    365*(if year < 0 then year else year - 1) + (if year < 0 then year else year - 1)/4 - 1
        ≤ date ∧
    date < 365*(if year < 0 then year else year - 1)
        + (if year < 0 then year else year - 1)/4 - 1 + 365
        + (if year % 4 = (if 0 < year then 0 else 3) then 1 else 0) := by
  have hsplit : (year % 4 = 0 ∧ (year-1)/4 = year/4 - 1)
      ∨ (year % 4 ≠ 0 ∧ (year-1)/4 = year/4) := by omega
  rcases hsplit with ⟨hs1, hs2⟩ | ⟨hs1, hs2⟩ <;> split_ifs at * <;> omega

/-- The year computed inside `Julian.fromFixed` brackets the date within a
365- or 366-day window starting at its January 1. -/
theorem Julian.fromFixed_year_bounds (date : ℤ) :
    Julian.toFixed (Julian.fromFixed date).1 1 1 ≤ date ∧
    date < Julian.toFixed (Julian.fromFixed date).1 1 1 + 365
      + (if Julian.isLeapYear (Julian.fromFixed date).1 then 1 else 0) := by
  rw [julian_jan1_closed]
  set Y := (Julian.fromFixed date).1 with hYdef
  have hYval : Y = (if 0 < (4*(date - -1) + 1464)/1461 then (4*(date - -1) + 1464)/1461
      else (4*(date - -1) + 1464)/1461 - 1) := by
    rw [hYdef]
    simp only [Julian.fromFixed, Julian.EPOCH]
    rw [Int.fdiv_eq_ediv _ (by norm_num : (0:ℤ) ≤ 1461)]
  have hL : (if Julian.isLeapYear Y then (1:ℤ) else 0)
      = (if Y % 4 = (if 0 < Y then 0 else 3) then 1 else 0) := by
    rcases Bool.eq_false_or_eq_true (Julian.isLeapYear Y) with hb | hb
    · have := (Julian.isLeapYear_iff Y).mp hb
      simp [hb, this]
    · have hnot : ¬ (Y % 4 = (if 0 < Y then 0 else 3)) := by
        intro hcontra
        have := (Julian.isLeapYear_iff Y).mpr hcontra
        rw [hb] at this
        exact absurd this (by simp)
      simp [hb, hnot]
  rw [hL]
  have h1 := Int.ediv_add_emod (4*(date - -1) + 1464) 1461
  have h2 := Int.emod_nonneg (4*(date - -1) + 1464) (by norm_num : (1461:ℤ) ≠ 0)
  have h3 := Int.emod_lt_of_pos (4*(date - -1) + 1464) (by norm_num : (0:ℤ) < 1461)
  exact julian_bounds_arith date ((4*(date - -1) + 1464)/1461) Y (by omega) (by omega) hYval

/-- The month computed by `Julian.fromFixed` is between 1 and 12. -/
theorem Julian.fromFixed_month_range (date : ℤ) :
    1 ≤ (Julian.fromFixed date).2.1 ∧ (Julian.fromFixed date).2.1 ≤ 12 := by
  obtain ⟨hb1, hb2⟩ := Julian.fromFixed_year_bounds date
  have hmonth : (Julian.fromFixed date).2.1 =
      Int.fdiv (12 * ((date - Julian.toFixed (Julian.fromFixed date).1 1 1)
        + (if date < Julian.toFixed (Julian.fromFixed date).1 3 1 then 0
           else if Julian.isLeapYear (Julian.fromFixed date).1 then 1 else 2)) + 373) 367 := rfl
  rw [hmonth, Int.fdiv_eq_ediv _ (by norm_num : (0:ℤ) ≤ 367), Julian.mar1_closed]
  rcases Bool.eq_false_or_eq_true (Julian.isLeapYear (Julian.fromFixed date).1) with hLb | hLb
    <;> simp [hLb] at hb2 ⊢
    <;> split_ifs <;> omega

-- ------------------------- ROMAN ROUND TRIP -------------------------

open Roman in
theorem roman_toFixed_fromFixed (d : ℤ) :
    Roman.toFixed (Roman.fromFixed d).1 (Roman.fromFixed d).2.1 (Roman.fromFixed d).2.2.1
      (Roman.fromFixed d).2.2.2.1 (Roman.fromFixed d).2.2.2.2 = d := by
  obtain ⟨hm1, hm12⟩ := Julian.fromFixed_month_range d
  have hrt := julian_toFixed_fromFixed d
  rcases hj : Julian.fromFixed d with ⟨y, m, dd⟩
  simp only [hj] at hm1 hm12 hrt
  by_cases h1 : dd = 1
  · have hval : Roman.fromFixed d = (y, m, RomanEvent.Kalends, 1, false) := by
      simp only [Roman.fromFixed, hj]
      rw [if_pos h1]
    rw [hval]
    show Roman.toFixed y m RomanEvent.Kalends 1 false = d
    dsimp only [Roman.toFixed]
    rw [if_neg (by rintro ⟨-, -, -, hx, -⟩; omega), if_neg Bool.false_ne_true]
    subst h1
    omega
  by_cases h2 : dd ≤ Roman.nones m
  · have hval : Roman.fromFixed d = (y, m, RomanEvent.Nones, Roman.nones m - dd + 1, false) := by
      simp only [Roman.fromFixed, hj]
      rw [if_neg h1, if_pos h2]
    rw [hval]
    show Roman.toFixed y m RomanEvent.Nones (Roman.nones m - dd + 1) false = d
    dsimp only [Roman.toFixed]
    rw [if_neg (by rintro ⟨-, -, hx, -⟩; exact absurd hx (by decide)), if_neg Bool.false_ne_true]
    rw [julian_toFixed_day y m (Roman.nones m)]
    rw [julian_toFixed_day y m dd] at hrt
    omega
  by_cases h3 : dd ≤ Roman.ides m
  · have hval : Roman.fromFixed d = (y, m, RomanEvent.Ides, Roman.ides m - dd + 1, false) := by
      simp only [Roman.fromFixed, hj]
      rw [if_neg h1, if_neg h2, if_pos h3]
    rw [hval]
    show Roman.toFixed y m RomanEvent.Ides (Roman.ides m - dd + 1) false = d
    dsimp only [Roman.toFixed]
    rw [if_neg (by rintro ⟨-, -, hx, -⟩; exact absurd hx (by decide)), if_neg Bool.false_ne_true]
    rw [julian_toFixed_day y m (Roman.ides m)]
    rw [julian_toFixed_day y m dd] at hrt
    omega
  by_cases h4 : m ≠ 2 ∨ ¬Julian.isLeapYear y
  · -- counting down to the next Kalends
    have hamod : jsAmod (m + 1) 12 = m % 12 + 1 := by
      rw [jsAmod_twelve]
      norm_num
    set m2 := jsAmod (m + 1) 12 with hm2
    set y2 := (if m2 ≠ 1 then y else if m2 = 1 ∧ y ≠ -1 then y + 1 else 1) with hy2
    set k1 := Roman.toFixed y2 m2 RomanEvent.Kalends 1 false with hk1
    have hval : Roman.fromFixed d = (y2, m2, RomanEvent.Kalends, k1 - d + 1, false) := by
      simp only [Roman.fromFixed, hj]
      rw [if_neg h1, if_neg h2, if_neg h3, if_pos h4]
    have hk1v : k1 = Julian.toFixed y2 m2 1 := by
      rw [hk1]
      dsimp only [Roman.toFixed]
      rw [if_neg (by rintro ⟨-, -, -, hx, -⟩; omega), if_neg Bool.false_ne_true]
      ring
    have hf : ¬(Julian.isLeapYear y2 = true ∧ m2 = 3) := by
      rintro ⟨hleap2, hm23⟩
      have hmeq : m = 2 := by
        rw [hamod] at hm23
        omega
      have hy2eq : y2 = y := by
        rw [hy2, if_pos]
        rw [hm23]
        norm_num
      rcases h4 with h4 | h4
      · exact h4 hmeq
      · rw [hy2eq] at hleap2
        exact h4 hleap2
    rw [hval]
    show Roman.toFixed y2 m2 RomanEvent.Kalends (k1 - d + 1) false = d
    dsimp only [Roman.toFixed]
    rw [if_neg (by rintro ⟨ha, hb, -⟩; exact hf ⟨ha, hb⟩), if_neg Bool.false_ne_true, hk1v]
    omega
  · push_neg at h4
    obtain ⟨hm2eq, hleap⟩ := h4
    by_cases h5 : dd < 25
    · -- leap-year February, before the intercalated day
      have hval : Roman.fromFixed d = (y, 3, RomanEvent.Kalends, 30 - dd, false) := by
        simp only [Roman.fromFixed, hj]
        rw [if_neg h1, if_neg h2, if_neg h3,
          if_neg (by push_neg; exact ⟨hm2eq, hleap⟩), if_pos h5]
      have hides : Roman.ides m = 13 := by
        rw [hm2eq]
        decide
      rw [hval]
      show Roman.toFixed y 3 RomanEvent.Kalends (30 - dd) false = d
      dsimp only [Roman.toFixed]
      rw [if_pos ⟨hleap, rfl, rfl, by omega, by rw [hides] at h3; omega⟩,
        if_neg Bool.false_ne_true]
      rw [Julian.mar1_sub_feb y dd hleap]
      rw [hm2eq] at hrt
      omega
    · -- leap-year February, on or after the intercalated day
      have hval : Roman.fromFixed d = (y, 3, RomanEvent.Kalends, 31 - dd, decide (dd = 25)) := by
        simp only [Roman.fromFixed, hj]
        rw [if_neg h1, if_neg h2, if_neg h3,
          if_neg (by push_neg; exact ⟨hm2eq, hleap⟩), if_neg h5]
      rw [hval]
      show Roman.toFixed y 3 RomanEvent.Kalends (31 - dd) (decide (dd = 25)) = d
      dsimp only [Roman.toFixed]
      rw [Julian.mar1_sub_feb y dd hleap] at *
      rw [hm2eq] at hrt
      by_cases hdd25 : dd = 25
      · rw [if_pos ⟨hleap, rfl, rfl, by omega, by omega⟩,
          if_pos (by rw [hdd25]; decide)]
        omega
      · rw [if_neg (by rintro ⟨-, -, -, hx1, hx2⟩; omega),
          if_neg (by simp [hdd25])]
        omega

-- ------------------------- ISO ROUND TRIP -------------------------

/-- December 28 of the previous Gregorian year is always four days before
January 1. -/
theorem Gregorian.dec28 (y : ℤ) :
    Gregorian.toFixed (y - 1) 12 28 = Gregorian.toFixed y 1 1 - 4 := by
  have e4 : ∀ a : ℤ, Int.fdiv a 4 = a / 4 := fun a => Int.fdiv_eq_ediv a (by norm_num)
  have e100 : ∀ a : ℤ, Int.fdiv a 100 = a / 100 := fun a => Int.fdiv_eq_ediv a (by norm_num)
  have e400 : ∀ a : ℤ, Int.fdiv a 400 = a / 400 := fun a => Int.fdiv_eq_ediv a (by norm_num)
  have e12 : ∀ a : ℤ, Int.fdiv a 12 = a / 12 := fun a => Int.fdiv_eq_ediv a (by norm_num)
  simp only [Gregorian.toFixed, Gregorian.isLeapYear, jsMod, e4, e100, e400, e12,
    decide_eq_true_eq]
  rw [if_pos (by norm_num : (2:ℤ) < 12), if_neg (by norm_num : ¬(2:ℤ) < 1)]
  split_ifs with hl
  · omega
  · omega

theorem floor_intCast_div_seven (n : ℤ) : ⌊(n : ℚ) / 7⌋ = n / 7 := by
  have h := Rat.floor_intCast_div_natCast n 7
  exact_mod_cast h

theorem jsModQ_intCast_seven (a : ℤ) : jsModQ (a : ℚ) 7 = ((a % 7 : ℤ) : ℚ) := by
  have h := jsModQ_intCast a 7 (by norm_num)
  rw [jsMod_eq_emod _ _ (by norm_num)] at h
  exact_mod_cast h

/-- `ISO.toFixed` with a positive week number is integer-valued, in closed
form. -/
theorem ISO.toFixed_int (y w d : ℤ) (hw : 0 < w) :
    ISO.toFixed y w d =
      ((7*w + (Gregorian.toFixed y 1 1 - 5) - (Gregorian.toFixed y 1 1 - 5) % 7 + d : ℤ) : ℚ) := by
  rw [ISO.toFixed, Gregorian.dec28, nthWeekday, if_pos hw, weekdayOnOrBefore]
  have hq : ((Gregorian.toFixed y 1 1 - 4 : ℤ) : ℚ) - 1 - ((0 : ℤ) : ℚ)
      = ((Gregorian.toFixed y 1 1 - 5 : ℤ) : ℚ) := by
    push_cast
    ring
  rw [hq, jsModQ_intCast_seven]
  push_cast
  ring

theorem iso_rt_core (date y : ℤ)
    (hy : 7*1 + (Gregorian.toFixed y 1 1 - 5) - (Gregorian.toFixed y 1 1 - 5) % 7 + 1 ≤ date) :
    ISO.toFixed y (⌊((date : ℚ) - ISO.toFixed y 1 1) / 7⌋ + 1) (jsAmod date 7) = (date : ℚ) := by
  rw [jsAmod_seven]
  have hq : (date : ℚ) - ISO.toFixed y 1 1 =
      ((date - (7*1 + (Gregorian.toFixed y 1 1 - 5) - (Gregorian.toFixed y 1 1 - 5) % 7 + 1) : ℤ) : ℚ) := by
    rw [ISO.toFixed_int y 1 1 (by norm_num)]
    push_cast
    ring
  rw [hq, floor_intCast_div_seven]
  have hw : 0 < (date - (7*1 + (Gregorian.toFixed y 1 1 - 5) - (Gregorian.toFixed y 1 1 - 5) % 7 + 1)) / 7 + 1 := by
    have h0 : 0 ≤ (date - (7*1 + (Gregorian.toFixed y 1 1 - 5) - (Gregorian.toFixed y 1 1 - 5) % 7 + 1)) / 7 :=
      Int.ediv_nonneg (by omega) (by norm_num)
    omega
  rw [ISO.toFixed_int y ((date - (7*1 + (Gregorian.toFixed y 1 1 - 5) - (Gregorian.toFixed y 1 1 - 5) % 7 + 1)) / 7 + 1)
    ((date - 1) % 7 + 1) hw]
  have hfin : 7*((date - (7*1 + (Gregorian.toFixed y 1 1 - 5) - (Gregorian.toFixed y 1 1 - 5) % 7 + 1)) / 7 + 1)
      + (Gregorian.toFixed y 1 1 - 5) - (Gregorian.toFixed y 1 1 - 5) % 7 + ((date - 1) % 7 + 1) = date := by
    omega
  exact_mod_cast hfin

/-- Round trip for the ISO week calendar. -/
theorem iso_toFixed_fromFixed (date : ℤ) :
    ISO.toFixed (ISO.fromFixed date).1 (ISO.fromFixed date).2.1 (ISO.fromFixed date).2.2
      = (date : ℚ) := by
  obtain ⟨hb1, hb2⟩ := Gregorian.yearFromFixed_bounds (date - 3)
  simp only [ISO.fromFixed]
  split_ifs with hc
  · refine iso_rt_core date (Gregorian.yearFromFixed (date - 3) + 1) ?_
    rw [ISO.toFixed_int (Gregorian.yearFromFixed (date - 3) + 1) 1 1 (by norm_num)] at hc
    exact_mod_cast hc
  · refine iso_rt_core date (Gregorian.yearFromFixed (date - 3)) ?_
    have h7 : 0 ≤ (Gregorian.toFixed (Gregorian.yearFromFixed (date - 3)) 1 1 - 5) % 7 :=
      Int.emod_nonneg _ (by norm_num)
    omega

-- ------------------------- PERSIAN AND FRENCH ROUND TRIPS -------------------------

theorem persian_toFixed_day (lib : AstroLib) (y m d : ℤ) :
    Persian.toFixed lib y m d = Persian.toFixed lib y m 1 + d - 1 := by
  simp only [Persian.toFixed]
  ring

/-- Round trip for the astronomical Persian calendar: it holds for every
ephemeris `lib`, because `fromFixed` always subtracts the same `toFixed` it
later adds back. -/
theorem persian_toFixed_fromFixed (lib : AstroLib) (date : ℤ) :
    Persian.toFixed lib (Persian.fromFixed lib date).1 (Persian.fromFixed lib date).2.1
      (Persian.fromFixed lib date).2.2 = date := by
  have key : ∀ year m : ℤ,
      Persian.toFixed lib year m (date - Persian.toFixed lib year m 1 + 1) = date := by
    intro year m
    rw [persian_toFixed_day]
    ring
  simp only [Persian.fromFixed]
  split_ifs <;> exact key _ _

theorem french_toFixed_day (lib : AstroLib) (y m d : ℤ) :
    French.toFixed lib y m d = French.toFixed lib y 1 1 + 30 * (m - 1) + d - 1 := by
  simp only [French.toFixed]
  ring

/-- Conditional round trip for the astronomical French calendar: whenever
January 1 of the year computed by `fromFixed` falls on the new year on or
before the date (the consistency of the two `newYearOnOrBefore` calls), the
round trip holds. -/
theorem french_toFixed_fromFixed (lib : AstroLib) (date : ℤ)
    (H : French.toFixed lib (French.fromFixed lib date).1 1 1
        = French.newYearOnOrBefore lib date) :
    French.toFixed lib (French.fromFixed lib date).1 (French.fromFixed lib date).2.1
      (French.fromFixed lib date).2.2 = date := by
  rw [french_toFixed_day, H]
  simp only [French.fromFixed] at *
  simp only [jsMod]
  ring

-- ------------------------- PHASIS SEARCH CHARACTERISATION -------------------------

theorem Astronomy.crescentLoop_spec (lib : AstroLib) (locale : Locality) (tau : ℤ) :
    ∀ n i : ℕ, i + n = 29 →
      (Astronomy.crescentLoop lib locale tau i = tau + 29
        ∧ ∀ j : ℕ, i ≤ j → j < 30 →
            Astronomy.isCrescentVisible lib ((tau : ℚ) + j) locale = false)
      ∨ (∃ j : ℕ, i ≤ j ∧ j < 30 ∧ Astronomy.crescentLoop lib locale tau i = tau + j
          ∧ Astronomy.isCrescentVisible lib ((tau : ℚ) + j) locale = true
          ∧ ∀ k : ℕ, i ≤ k → k < j →
              Astronomy.isCrescentVisible lib ((tau : ℚ) + k) locale = false) := by
  intro n
  induction n with
  | zero =>
    intro i hi
    have hi29 : i = 29 := by omega
    subst hi29
    rw [Astronomy.crescentLoop.eq_def, if_neg (by omega : ¬(29:ℕ) < 29)]
    by_cases hv : Astronomy.isCrescentVisible lib ((tau : ℚ) + (29 : ℕ)) locale = true
    · right
      exact ⟨29, le_refl _, by omega, by norm_num, hv,
        fun k hk1 hk2 => absurd (lt_of_le_of_lt hk1 hk2) (lt_irrefl _)⟩
    · left
      refine ⟨rfl, fun j hj1 hj2 => ?_⟩
      have hj : j = 29 := by omega
      subst hj
      simpa using hv
  | succ n ih =>
    intro i hi
    rw [Astronomy.crescentLoop.eq_def, if_pos (by omega : i < 29)]
    by_cases hv : Astronomy.isCrescentVisible lib ((tau : ℚ) + (i : ℕ)) locale = true
    · rw [if_pos hv]
      right
      exact ⟨i, le_refl _, by omega, rfl, hv,
        fun k hk1 hk2 => absurd (lt_of_le_of_lt hk1 hk2) (lt_irrefl _)⟩
    · rw [if_neg hv]
      have hvf : Astronomy.isCrescentVisible lib ((tau : ℚ) + (i : ℕ)) locale = false := by
        simpa using hv
      rcases ih (i+1) (by omega) with ⟨hres, hall⟩ | ⟨j, hj1, hj2, hj3, hj4, hj5⟩
      · left
        refine ⟨hres, fun j hj1 hj2 => ?_⟩
        rcases eq_or_lt_of_le hj1 with rfl | hlt
        · exact hvf
        · exact hall j (by omega) hj2
      · right
        refine ⟨j, by omega, hj2, hj3, hj4, fun k hk1 hk2 => ?_⟩
        rcases eq_or_lt_of_le hk1 with rfl | hlt
        · exact hvf
        · exact hj5 k (by omega) hk2

-- ------------------------- HEBREW YEAR LENGTHS -------------------------

/-- `elapsedDays` in closed form with Euclidean `%`. -/
theorem Hebrew.elapsedDays_emod (y : ℤ) :
    Hebrew.elapsedDays y =
      if (3 * ((765433 * ((235 * y - 234) / 19) + 12084) / 25920 + 1)) % 7 < 3
      then (765433 * ((235 * y - 234) / 19) + 12084) / 25920 + 1
      else (765433 * ((235 * y - 234) / 19) + 12084) / 25920 := by
  rw [Hebrew.elapsedDays_eq, jsMod_eq_emod _ _ (by norm_num)]

theorem Hebrew.mod7_chain (A B C : ℤ) (hD : B = A + 383) (hKey : C = B + 355)
    (hc0 : (3 * (A + 1)) % 7 < 3) (hc1 : ¬((3 * (B + 1)) % 7 < 3)) :
    (if (3 * (C + 1)) % 7 < 3 then C + 1 else C)
      - (if (3 * (B + 1)) % 7 < 3 then B + 1 else B) = 355 := by
  have hA : A % 7 = 0 ∨ A % 7 = 1 ∨ A % 7 = 2 ∨ A % 7 = 3 ∨ A % 7 = 4
      ∨ A % 7 = 5 ∨ A % 7 = 6 := by omega
  have hcC : ¬((3 * (C + 1)) % 7 < 3) := by
    rcases hA with h|h|h|h|h|h|h <;> omega
  rw [if_neg hc1, if_neg hcC]
  omega

theorem Hebrew.after382 (y : ℤ) (h : Hebrew.elapsedDays (y+1) - Hebrew.elapsedDays y = 382) :
    Hebrew.elapsedDays (y+2) - Hebrew.elapsedDays (y+1) = 355 := by
  have s0 := Int.ediv_add_emod (235 * y - 234) 19
  have s0b : 0 ≤ (235 * y - 234) % 19 := Int.emod_nonneg _ (by norm_num)
  have s0c : (235 * y - 234) % 19 < 19 := Int.emod_lt_of_pos _ (by norm_num)
  have s1 := Int.ediv_add_emod (235 * (y + 1) - 234) 19
  have s1b : 0 ≤ (235 * (y + 1) - 234) % 19 := Int.emod_nonneg _ (by norm_num)
  have s1c : (235 * (y + 1) - 234) % 19 < 19 := Int.emod_lt_of_pos _ (by norm_num)
  have s2 := Int.ediv_add_emod (235 * (y + 2) - 234) 19
  have s2b : 0 ≤ (235 * (y + 2) - 234) % 19 := Int.emod_nonneg _ (by norm_num)
  have s2c : (235 * (y + 2) - 234) % 19 < 19 := Int.emod_lt_of_pos _ (by norm_num)
  have p0 := Int.ediv_add_emod (765433 * ((235 * y - 234) / 19) + 12084) 25920
  have p0b : 0 ≤ (765433 * ((235 * y - 234) / 19) + 12084) % 25920 := Int.emod_nonneg _ (by norm_num)
  have p0c : (765433 * ((235 * y - 234) / 19) + 12084) % 25920 < 25920 := Int.emod_lt_of_pos _ (by norm_num)
  have p1 := Int.ediv_add_emod (765433 * ((235 * (y + 1) - 234) / 19) + 12084) 25920
  have p1b : 0 ≤ (765433 * ((235 * (y + 1) - 234) / 19) + 12084) % 25920 := Int.emod_nonneg _ (by norm_num)
  have p1c : (765433 * ((235 * (y + 1) - 234) / 19) + 12084) % 25920 < 25920 := Int.emod_lt_of_pos _ (by norm_num)
  have p2 := Int.ediv_add_emod (765433 * ((235 * (y + 2) - 234) / 19) + 12084) 25920
  have p2b : 0 ≤ (765433 * ((235 * (y + 2) - 234) / 19) + 12084) % 25920 := Int.emod_nonneg _ (by norm_num)
  have p2c : (765433 * ((235 * (y + 2) - 234) / 19) + 12084) % 25920 < 25920 := Int.emod_lt_of_pos _ (by norm_num)
  have hM01 : (235 * (y + 1) - 234) / 19 = (235 * y - 234) / 19 + 12
      ∨ (235 * (y + 1) - 234) / 19 = (235 * y - 234) / 19 + 13 := by omega
  have hM12 : (235 * (y + 2) - 234) / 19 = (235 * (y + 1) - 234) / 19 + 12
      ∨ (235 * (y + 2) - 234) / 19 = (235 * (y + 1) - 234) / 19 + 13 := by omega
  have hM02 : ¬((235 * (y + 1) - 234) / 19 = (235 * y - 234) / 19 + 13
      ∧ (235 * (y + 2) - 234) / 19 = (235 * (y + 1) - 234) / 19 + 13) := by omega
  have hD01 : (765433 * ((235 * (y + 1) - 234) / 19) + 12084) / 25920
        = (765433 * ((235 * y - 234) / 19) + 12084) / 25920 + 354
      ∨ (765433 * ((235 * (y + 1) - 234) / 19) + 12084) / 25920
        = (765433 * ((235 * y - 234) / 19) + 12084) / 25920 + 355
      ∨ (765433 * ((235 * (y + 1) - 234) / 19) + 12084) / 25920
        = (765433 * ((235 * y - 234) / 19) + 12084) / 25920 + 383
      ∨ (765433 * ((235 * (y + 1) - 234) / 19) + 12084) / 25920
        = (765433 * ((235 * y - 234) / 19) + 12084) / 25920 + 384 := by
    rcases hM01 with h' | h' <;> omega
  have hD12 : (765433 * ((235 * (y + 2) - 234) / 19) + 12084) / 25920
        = (765433 * ((235 * (y + 1) - 234) / 19) + 12084) / 25920 + 354
      ∨ (765433 * ((235 * (y + 2) - 234) / 19) + 12084) / 25920
        = (765433 * ((235 * (y + 1) - 234) / 19) + 12084) / 25920 + 355
      ∨ (765433 * ((235 * (y + 2) - 234) / 19) + 12084) / 25920
        = (765433 * ((235 * (y + 1) - 234) / 19) + 12084) / 25920 + 383
      ∨ (765433 * ((235 * (y + 2) - 234) / 19) + 12084) / 25920
        = (765433 * ((235 * (y + 1) - 234) / 19) + 12084) / 25920 + 384 := by
    rcases hM12 with h' | h' <;> omega
  have hCarry : (765433 * ((235 * (y + 1) - 234) / 19) + 12084) / 25920
        = (765433 * ((235 * y - 234) / 19) + 12084) / 25920 + 383 →
      (765433 * ((235 * (y + 2) - 234) / 19) + 12084) / 25920
        = (765433 * ((235 * (y + 1) - 234) / 19) + 12084) / 25920 + 355 := by
    intro hx
    rcases hM01 with h' | h'
    · omega
    · rcases hM12 with h'' | h''
      · omega
      · exact absurd ⟨h', h''⟩ hM02
  clear s0 s0b s0c s1 s1b s1c s2 s2b s2c p0 p0b p0c p1 p1b p1c p2 p2b p2c hM01 hM12 hM02 hD12
  rcases hD01 with hD | hD | hD | hD
  · clear hCarry
    simp only [Hebrew.elapsedDays_emod] at h
    split_ifs at h <;> omega
  · clear hCarry
    simp only [Hebrew.elapsedDays_emod] at h
    split_ifs at h <;> omega
  · have hKey := hCarry hD
    clear hCarry
    simp only [Hebrew.elapsedDays_emod] at h ⊢
    split_ifs at h
    · omega
    · omega
    · rename_i hb1 hb0
      exact Hebrew.mod7_chain _ _ _ hD hKey hb0 hb1
    · omega
  · clear hCarry
    simp only [Hebrew.elapsedDays_emod] at h
    split_ifs at h <;> omega

theorem Hebrew.mod7_before (A B C : ℤ) (hKey : C = B + 355)
    (hADis : B = A + 354 ∨ B = A + 383 ∨ B = A + 384)
    (hc1 : ¬((3 * (B + 1)) % 7 < 3)) (hc2 : (3 * (C + 1)) % 7 < 3) :
    (if (3 * (B + 1)) % 7 < 3 then B + 1 else B)
      - (if (3 * (A + 1)) % 7 < 3 then A + 1 else A) = 353
    ∨ (if (3 * (B + 1)) % 7 < 3 then B + 1 else B)
      - (if (3 * (A + 1)) % 7 < 3 then A + 1 else A) = 383 := by
  have hA : A % 7 = 0 ∨ A % 7 = 1 ∨ A % 7 = 2 ∨ A % 7 = 3 ∨ A % 7 = 4
      ∨ A % 7 = 5 ∨ A % 7 = 6 := by omega
  rw [if_neg hc1]
  rcases hADis with hD | hD | hD
  · left
    have hc0 : (3 * (A + 1)) % 7 < 3 := by rcases hA with h|h|h|h|h|h|h <;> omega
    rw [if_pos hc0]
    omega
  · right
    have hc0 : ¬((3 * (A + 1)) % 7 < 3) := by rcases hA with h|h|h|h|h|h|h <;> omega
    rw [if_neg hc0]
    omega
  · right
    have hc0 : (3 * (A + 1)) % 7 < 3 := by rcases hA with h|h|h|h|h|h|h <;> omega
    rw [if_pos hc0]
    omega

theorem Hebrew.before356 (y : ℤ) (h : Hebrew.elapsedDays (y+2) - Hebrew.elapsedDays (y+1) = 356) :
    Hebrew.elapsedDays (y+1) - Hebrew.elapsedDays y = 353 ∨ Hebrew.elapsedDays (y+1) - Hebrew.elapsedDays y = 383 := by
  have s0 := Int.ediv_add_emod (235 * y - 234) 19
  have s0b : 0 ≤ (235 * y - 234) % 19 := Int.emod_nonneg _ (by norm_num)
  have s0c : (235 * y - 234) % 19 < 19 := Int.emod_lt_of_pos _ (by norm_num)
  have s1 := Int.ediv_add_emod (235 * (y + 1) - 234) 19
  have s1b : 0 ≤ (235 * (y + 1) - 234) % 19 := Int.emod_nonneg _ (by norm_num)
  have s1c : (235 * (y + 1) - 234) % 19 < 19 := Int.emod_lt_of_pos _ (by norm_num)
  have s2 := Int.ediv_add_emod (235 * (y + 2) - 234) 19
  have s2b : 0 ≤ (235 * (y + 2) - 234) % 19 := Int.emod_nonneg _ (by norm_num)
  have s2c : (235 * (y + 2) - 234) % 19 < 19 := Int.emod_lt_of_pos _ (by norm_num)
  have p0 := Int.ediv_add_emod (765433 * ((235 * y - 234) / 19) + 12084) 25920
  have p0b : 0 ≤ (765433 * ((235 * y - 234) / 19) + 12084) % 25920 := Int.emod_nonneg _ (by norm_num)
  have p0c : (765433 * ((235 * y - 234) / 19) + 12084) % 25920 < 25920 := Int.emod_lt_of_pos _ (by norm_num)
  have p1 := Int.ediv_add_emod (765433 * ((235 * (y + 1) - 234) / 19) + 12084) 25920
  have p1b : 0 ≤ (765433 * ((235 * (y + 1) - 234) / 19) + 12084) % 25920 := Int.emod_nonneg _ (by norm_num)
  have p1c : (765433 * ((235 * (y + 1) - 234) / 19) + 12084) % 25920 < 25920 := Int.emod_lt_of_pos _ (by norm_num)
  have p2 := Int.ediv_add_emod (765433 * ((235 * (y + 2) - 234) / 19) + 12084) 25920
  have p2b : 0 ≤ (765433 * ((235 * (y + 2) - 234) / 19) + 12084) % 25920 := Int.emod_nonneg _ (by norm_num)
  have p2c : (765433 * ((235 * (y + 2) - 234) / 19) + 12084) % 25920 < 25920 := Int.emod_lt_of_pos _ (by norm_num)
  have hM01 : (235 * (y + 1) - 234) / 19 = (235 * y - 234) / 19 + 12
      ∨ (235 * (y + 1) - 234) / 19 = (235 * y - 234) / 19 + 13 := by omega
  have hM12 : (235 * (y + 2) - 234) / 19 = (235 * (y + 1) - 234) / 19 + 12
      ∨ (235 * (y + 2) - 234) / 19 = (235 * (y + 1) - 234) / 19 + 13 := by omega
  have hM02 : ¬((235 * (y + 1) - 234) / 19 = (235 * y - 234) / 19 + 13
      ∧ (235 * (y + 2) - 234) / 19 = (235 * (y + 1) - 234) / 19 + 13) := by omega
  have hD01 : (765433 * ((235 * (y + 1) - 234) / 19) + 12084) / 25920
        = (765433 * ((235 * y - 234) / 19) + 12084) / 25920 + 354
      ∨ (765433 * ((235 * (y + 1) - 234) / 19) + 12084) / 25920
        = (765433 * ((235 * y - 234) / 19) + 12084) / 25920 + 355
      ∨ (765433 * ((235 * (y + 1) - 234) / 19) + 12084) / 25920
        = (765433 * ((235 * y - 234) / 19) + 12084) / 25920 + 383
      ∨ (765433 * ((235 * (y + 1) - 234) / 19) + 12084) / 25920
        = (765433 * ((235 * y - 234) / 19) + 12084) / 25920 + 384 := by
    rcases hM01 with h' | h' <;> omega
  have hD12 : (765433 * ((235 * (y + 2) - 234) / 19) + 12084) / 25920
        = (765433 * ((235 * (y + 1) - 234) / 19) + 12084) / 25920 + 354
      ∨ (765433 * ((235 * (y + 2) - 234) / 19) + 12084) / 25920
        = (765433 * ((235 * (y + 1) - 234) / 19) + 12084) / 25920 + 355
      ∨ (765433 * ((235 * (y + 2) - 234) / 19) + 12084) / 25920
        = (765433 * ((235 * (y + 1) - 234) / 19) + 12084) / 25920 + 383
      ∨ (765433 * ((235 * (y + 2) - 234) / 19) + 12084) / 25920
        = (765433 * ((235 * (y + 1) - 234) / 19) + 12084) / 25920 + 384 := by
    rcases hM12 with h' | h' <;> omega
  have hExcl : (765433 * ((235 * (y + 2) - 234) / 19) + 12084) / 25920
        = (765433 * ((235 * (y + 1) - 234) / 19) + 12084) / 25920 + 355 →
      ¬((765433 * ((235 * (y + 1) - 234) / 19) + 12084) / 25920
        = (765433 * ((235 * y - 234) / 19) + 12084) / 25920 + 355) := by
    intro hx hz
    rcases hM01 with h' | h' <;> rcases hM12 with h'' | h'' <;> omega
  clear s0 s0b s0c s1 s1b s1c s2 s2b s2c p0 p0b p0c p1 p1b p1c p2 p2b p2c hM01 hM12 hM02
  rcases hD12 with hD' | hD' | hD' | hD'
  · clear hExcl hD01
    simp only [Hebrew.elapsedDays_emod] at h
    split_ifs at h <;> omega
  · have hx := hExcl hD'
    have hADis : (765433 * ((235 * (y + 1) - 234) / 19) + 12084) / 25920
          = (765433 * ((235 * y - 234) / 19) + 12084) / 25920 + 354
        ∨ (765433 * ((235 * (y + 1) - 234) / 19) + 12084) / 25920
          = (765433 * ((235 * y - 234) / 19) + 12084) / 25920 + 383
        ∨ (765433 * ((235 * (y + 1) - 234) / 19) + 12084) / 25920
          = (765433 * ((235 * y - 234) / 19) + 12084) / 25920 + 384 := by
      rcases hD01 with hD | hD | hD | hD
      exacts [Or.inl hD, absurd hD hx, Or.inr (Or.inl hD), Or.inr (Or.inr hD)]
    clear hExcl hD01
    simp only [Hebrew.elapsedDays_emod] at h ⊢
    split_ifs at h
    · omega
    · rename_i hc2 hc1
      exact Hebrew.mod7_before _ _ _ hD' hADis hc1 hc2
    · omega
    · omega
  · clear hExcl hD01
    simp only [Hebrew.elapsedDays_emod] at h
    split_ifs at h <;> omega
  · clear hExcl hD01
    simp only [Hebrew.elapsedDays_emod] at h
    split_ifs at h <;> omega

theorem Hebrew.delta_elapsed (y : ℤ) :
    Hebrew.elapsedDays (y+1) - Hebrew.elapsedDays y = 353 ∨ Hebrew.elapsedDays (y+1) - Hebrew.elapsedDays y = 354
    ∨ Hebrew.elapsedDays (y+1) - Hebrew.elapsedDays y = 355 ∨ Hebrew.elapsedDays (y+1) - Hebrew.elapsedDays y = 356
    ∨ Hebrew.elapsedDays (y+1) - Hebrew.elapsedDays y = 382 ∨ Hebrew.elapsedDays (y+1) - Hebrew.elapsedDays y = 383
    ∨ Hebrew.elapsedDays (y+1) - Hebrew.elapsedDays y = 384 ∨ Hebrew.elapsedDays (y+1) - Hebrew.elapsedDays y = 385 := by
  have s0 := Int.ediv_add_emod (235 * y - 234) 19
  have s0b : 0 ≤ (235 * y - 234) % 19 := Int.emod_nonneg _ (by norm_num)
  have s0c : (235 * y - 234) % 19 < 19 := Int.emod_lt_of_pos _ (by norm_num)
  have s1 := Int.ediv_add_emod (235 * (y + 1) - 234) 19
  have s1b : 0 ≤ (235 * (y + 1) - 234) % 19 := Int.emod_nonneg _ (by norm_num)
  have s1c : (235 * (y + 1) - 234) % 19 < 19 := Int.emod_lt_of_pos _ (by norm_num)
  have p0 := Int.ediv_add_emod (765433 * ((235 * y - 234) / 19) + 12084) 25920
  have p0b : 0 ≤ (765433 * ((235 * y - 234) / 19) + 12084) % 25920 := Int.emod_nonneg _ (by norm_num)
  have p0c : (765433 * ((235 * y - 234) / 19) + 12084) % 25920 < 25920 := Int.emod_lt_of_pos _ (by norm_num)
  have p1 := Int.ediv_add_emod (765433 * ((235 * (y + 1) - 234) / 19) + 12084) 25920
  have p1b : 0 ≤ (765433 * ((235 * (y + 1) - 234) / 19) + 12084) % 25920 := Int.emod_nonneg _ (by norm_num)
  have p1c : (765433 * ((235 * (y + 1) - 234) / 19) + 12084) % 25920 < 25920 := Int.emod_lt_of_pos _ (by norm_num)
  have hM : (235 * (y + 1) - 234) / 19 = (235 * y - 234) / 19 + 12
      ∨ (235 * (y + 1) - 234) / 19 = (235 * y - 234) / 19 + 13 := by omega
  rcases hM with hM | hM
  · have hD : (765433 * ((235 * (y + 1) - 234) / 19) + 12084) / 25920
        = (765433 * ((235 * y - 234) / 19) + 12084) / 25920 + 354
      ∨ (765433 * ((235 * (y + 1) - 234) / 19) + 12084) / 25920
        = (765433 * ((235 * y - 234) / 19) + 12084) / 25920 + 355 := by
      omega
    simp only [Hebrew.elapsedDays_emod]
    rcases hD with hD | hD <;> split_ifs <;> omega
  · have hD : (765433 * ((235 * (y + 1) - 234) / 19) + 12084) / 25920
        = (765433 * ((235 * y - 234) / 19) + 12084) / 25920 + 383
      ∨ (765433 * ((235 * (y + 1) - 234) / 19) + 12084) / 25920
        = (765433 * ((235 * y - 234) / 19) + 12084) / 25920 + 384 := by
      omega
    simp only [Hebrew.elapsedDays_emod]
    rcases hD with hD | hD <;> split_ifs <;> omega

theorem Hebrew.daysInYear_mem (y : ℤ) :
    Hebrew.daysInYear y = 353 ∨ Hebrew.daysInYear y = 354 ∨ Hebrew.daysInYear y = 355
    ∨ Hebrew.daysInYear y = 383 ∨ Hebrew.daysInYear y = 384 ∨ Hebrew.daysInYear y = 385 := by
  have L0 := Hebrew.delta_elapsed y
  have L1b : Hebrew.elapsedDays y - Hebrew.elapsedDays (y-1) = 382 →
      Hebrew.elapsedDays (y+1) - Hebrew.elapsedDays y = 355 := by
    intro g
    have hg : Hebrew.elapsedDays (y - 1 + 1) - Hebrew.elapsedDays (y - 1) = 382 := by
      rw [show y - 1 + 1 = y from by ring]
      exact g
    have hr := Hebrew.after382 (y - 1) hg
    rwa [show y - 1 + 2 = y + 1 from by ring, show y - 1 + 1 = y from by ring] at hr
  have hd : Hebrew.daysInYear y = (Hebrew.elapsedDays (y+1) - Hebrew.elapsedDays y)
      + Hebrew.newYearDelay (y+1) - Hebrew.newYearDelay y := by
    simp only [Hebrew.daysInYear, Hebrew.newYear]
    ring
  rw [hd]
  simp only [Hebrew.newYearDelay]
  rw [show y + 1 + 1 = y + 2 from by ring, show y + 1 - 1 = y from by ring]
  rcases L0 with h|h|h|h|h|h|h|h
  · have hc2 : ¬(Hebrew.elapsedDays (y+1) - Hebrew.elapsedDays y = 382) := by omega
    have hc3 : ¬(Hebrew.elapsedDays (y+1) - Hebrew.elapsedDays y = 356) := by omega
    have hc4 : ¬(Hebrew.elapsedDays y - Hebrew.elapsedDays (y-1) = 382) := fun g => by
      have := L1b g; omega
    by_cases f1 : Hebrew.elapsedDays (y+2) - Hebrew.elapsedDays (y+1) = 356
    · rw [if_pos f1, if_neg hc3, if_neg hc4]
      omega
    · rw [if_neg f1, if_neg hc2, if_neg hc3, if_neg hc4]
      omega
  · have hc2 : ¬(Hebrew.elapsedDays (y+1) - Hebrew.elapsedDays y = 382) := by omega
    have hc3 : ¬(Hebrew.elapsedDays (y+1) - Hebrew.elapsedDays y = 356) := by omega
    have hc4 : ¬(Hebrew.elapsedDays y - Hebrew.elapsedDays (y-1) = 382) := fun g => by
      have := L1b g; omega
    by_cases f1 : Hebrew.elapsedDays (y+2) - Hebrew.elapsedDays (y+1) = 356
    · have := Hebrew.before356 y f1
      omega
    · rw [if_neg f1, if_neg hc2, if_neg hc3, if_neg hc4]
      omega
  · have hc2 : ¬(Hebrew.elapsedDays (y+1) - Hebrew.elapsedDays y = 382) := by omega
    have hc3 : ¬(Hebrew.elapsedDays (y+1) - Hebrew.elapsedDays y = 356) := by omega
    by_cases f1 : Hebrew.elapsedDays (y+2) - Hebrew.elapsedDays (y+1) = 356
    · have := Hebrew.before356 y f1
      omega
    · by_cases f4 : Hebrew.elapsedDays y - Hebrew.elapsedDays (y-1) = 382
      · rw [if_neg f1, if_neg hc2, if_neg hc3, if_pos f4]
        omega
      · rw [if_neg f1, if_neg hc2, if_neg hc3, if_neg f4]
        omega
  · have hc2 : ¬(Hebrew.elapsedDays (y+1) - Hebrew.elapsedDays y = 382) := by omega
    have hc3 : Hebrew.elapsedDays (y+1) - Hebrew.elapsedDays y = 356 := h
    by_cases f1 : Hebrew.elapsedDays (y+2) - Hebrew.elapsedDays (y+1) = 356
    · have := Hebrew.before356 y f1
      omega
    · rw [if_neg f1, if_neg hc2, if_pos hc3]
      omega
  · have h355 := Hebrew.after382 y h
    have hf1 : ¬(Hebrew.elapsedDays (y+2) - Hebrew.elapsedDays (y+1) = 356) := by omega
    have hc2 : Hebrew.elapsedDays (y+1) - Hebrew.elapsedDays y = 382 := h
    have hc3 : ¬(Hebrew.elapsedDays (y+1) - Hebrew.elapsedDays y = 356) := by omega
    have hc4 : ¬(Hebrew.elapsedDays y - Hebrew.elapsedDays (y-1) = 382) := fun g => by
      have := L1b g; omega
    rw [if_neg hf1, if_pos hc2, if_neg hc3, if_neg hc4]
    omega
  · have hc2 : ¬(Hebrew.elapsedDays (y+1) - Hebrew.elapsedDays y = 382) := by omega
    have hc3 : ¬(Hebrew.elapsedDays (y+1) - Hebrew.elapsedDays y = 356) := by omega
    have hc4 : ¬(Hebrew.elapsedDays y - Hebrew.elapsedDays (y-1) = 382) := fun g => by
      have := L1b g; omega
    by_cases f1 : Hebrew.elapsedDays (y+2) - Hebrew.elapsedDays (y+1) = 356
    · rw [if_pos f1, if_neg hc3, if_neg hc4]
      omega
    · rw [if_neg f1, if_neg hc2, if_neg hc3, if_neg hc4]
      omega
  · have hc2 : ¬(Hebrew.elapsedDays (y+1) - Hebrew.elapsedDays y = 382) := by omega
    have hc3 : ¬(Hebrew.elapsedDays (y+1) - Hebrew.elapsedDays y = 356) := by omega
    have hc4 : ¬(Hebrew.elapsedDays y - Hebrew.elapsedDays (y-1) = 382) := fun g => by
      have := L1b g; omega
    by_cases f1 : Hebrew.elapsedDays (y+2) - Hebrew.elapsedDays (y+1) = 356
    · have := Hebrew.before356 y f1
      omega
    · rw [if_neg f1, if_neg hc2, if_neg hc3, if_neg hc4]
      omega
  · have hc2 : ¬(Hebrew.elapsedDays (y+1) - Hebrew.elapsedDays y = 382) := by omega
    have hc3 : ¬(Hebrew.elapsedDays (y+1) - Hebrew.elapsedDays y = 356) := by omega
    have hc4 : ¬(Hebrew.elapsedDays y - Hebrew.elapsedDays (y-1) = 382) := fun g => by
      have := L1b g; omega
    by_cases f1 : Hebrew.elapsedDays (y+2) - Hebrew.elapsedDays (y+1) = 356
    · have := Hebrew.before356 y f1
      omega
    · rw [if_neg f1, if_neg hc2, if_neg hc3, if_neg hc4]
      omega


-- ------------------------- TIME-OF-DAY NORMALISATION -------------------------

/-- C7: the fractional-day decomposition `toArray` always returns time-of-day
fields normalised to `0 ≤ hour < 24`, `0 ≤ minute < 60`, `0 ≤ second < 60`
after rounding the second to millisecond precision, the rounding carry
cascading into minute, then hour, then day. -/
theorem claim_C7 (y m d : ℚ) :
    (0 ≤ (toArray y m d).2.2.2.1 ∧ (toArray y m d).2.2.2.1 < 24)
    ∧ (0 ≤ (toArray y m d).2.2.2.2.1 ∧ (toArray y m d).2.2.2.2.1 < 60)
    ∧ (0 ≤ (toArray y m d).2.2.2.2.2 ∧ (toArray y m d).2.2.2.2.2 < 60) := by
  simp only [toArray]
  set r : ℤ := ⌊d⌋ with hr
  by_cases h0 : (r : ℚ) = d
  · rw [if_pos h0]
    norm_num
  · rw [if_neg h0]
    have hf0 : 0 ≤ d - (r : ℚ) := by
      have := Int.floor_le d
      rw [← hr] at this
      linarith
    have hf1 : d - (r : ℚ) < 1 := by
      have := Int.lt_floor_add_one d
      rw [← hr] at this
      linarith
    set e : ℚ := d - (r : ℚ) with he
    set h : ℤ := ⌊e * 24⌋ with hh
    have hh0 : 0 ≤ h := by
      rw [hh]
      exact Int.floor_nonneg.mpr (by nlinarith)
    have hhle : (h : ℚ) ≤ e * 24 := by
      rw [hh]
      exact Int.floor_le _
    have hhlt : e * 24 < (h : ℚ) + 1 := by
      rw [hh]
      exact Int.lt_floor_add_one _
    have hh1 : h < 24 := by
      have : (h : ℚ) < 24 := by nlinarith
      exact_mod_cast this
    set mn : ℤ := ⌊e * 24 * 60 - (h : ℚ) * 60⌋ with hmn
    have hmn0 : 0 ≤ mn := by
      rw [hmn]
      exact Int.floor_nonneg.mpr (by nlinarith)
    have hmnle : (mn : ℚ) ≤ e * 24 * 60 - (h : ℚ) * 60 := by
      rw [hmn]
      exact Int.floor_le _
    have hmnlt : e * 24 * 60 - (h : ℚ) * 60 < (mn : ℚ) + 1 := by
      rw [hmn]
      exact Int.lt_floor_add_one _
    have hmn1 : mn < 60 := by
      have : (mn : ℚ) < 60 := by nlinarith
      exact_mod_cast this
    have hsec0 : 0 ≤ e * 24 * 60 * 60 - (mn : ℚ) * 60 - (h : ℚ) * 60 * 60 := by nlinarith
    have hsec1 : e * 24 * 60 * 60 - (mn : ℚ) * 60 - (h : ℚ) * 60 * 60 < 60 := by nlinarith
    set sc : ℚ := e * 24 * 60 * 60 - (mn : ℚ) * 60 - (h : ℚ) * 60 * 60 with hsc
    have hk0 : 0 ≤ jsRound (sc * 1000) := by
      rw [jsRound]
      exact Int.floor_nonneg.mpr (by nlinarith)
    have hk1 : jsRound (sc * 1000) ≤ 60000 := by
      rw [jsRound]
      have hlt : sc * 1000 + 1/2 < 60001 := by nlinarith
      have h2 : ⌊sc * 1000 + 1/2⌋ < 60001 := Int.floor_lt.mpr (by exact_mod_cast hlt)
      omega
    have hs0 : 0 ≤ ((jsRound (sc * 1000) : ℤ) : ℚ) / 1000 := by positivity
    have hs1 : ((jsRound (sc * 1000) : ℤ) : ℚ) / 1000 ≤ 60 := by
      rw [div_le_iff₀ (by norm_num : (0:ℚ) < 1000)]
      exact_mod_cast hk1
    split_ifs with hcs hcm hch <;> dsimp only
    · norm_num
    · refine ⟨⟨?_, ?_⟩, ⟨le_refl _, by norm_num⟩, ⟨le_refl _, by norm_num⟩⟩
      · positivity
      · have hlt24 : h + 1 < 24 := by omega
        exact_mod_cast hlt24
    · refine ⟨⟨?_, ?_⟩, ⟨?_, ?_⟩, ⟨le_refl _, by norm_num⟩⟩
      · exact_mod_cast hh0
      · exact_mod_cast hh1
      · positivity
      · have : mn + 1 < 60 := by omega
        exact_mod_cast this
    · refine ⟨⟨?_, ?_⟩, ⟨?_, ?_⟩, ⟨?_, ?_⟩⟩
      · exact_mod_cast hh0
      · exact_mod_cast hh1
      · exact_mod_cast hmn0
      · exact_mod_cast hmn1
      · exact hs0
      · -- sec' < 60 since its floor is not 60
        rcases lt_or_eq_of_le hs1 with hlt | heq
        · exact hlt
        · exfalso
          apply hcs
          rw [heq]
          norm_num

-- ------------------------- WEEKDAY PROPERTIES -------------------------

/-- `getWeekday` has period 7. -/
theorem getWeekday_period (d : ℚ) : getWeekday (d + 7) = getWeekday d := by
  simp only [getWeekday]
  have h7 : (7 : ℚ) = ((7 : ℤ) : ℚ) := by norm_num
  rw [h7, Int.floor_add_int, jsMod_eq_emod _ _ (by norm_num), jsMod_eq_emod _ _ (by norm_num)]
  omega

/-- `weekdayOnOrBefore d k` lands within the seven days ending at `d`. -/
theorem weekdayOnOrBefore_bounds (d : ℚ) (k : ℤ) :
    weekdayOnOrBefore d k ≤ d ∧ d < weekdayOnOrBefore d k + 7 := by
  have h0 := jsModQ_nonneg (d - k) 7 (by norm_num)
  have h1 := jsModQ_lt (d - k) 7 (by norm_num)
  rw [weekdayOnOrBefore]
  constructor <;> linarith

-- ------------------------- DEPRESSION LEMMAS -------------------------

/-- `momentFromDepression` is `none` exactly on the polar branch. -/
theorem moment_none (lib : AstroLib) (approx : ℚ) (locale : Locality) (angle : ℚ)
    (h : 1 < |sineOffset lib approx locale angle|) :
    momentFromDepression lib approx locale angle = none := by
  simp only [momentFromDepression]
  rw [if_pos h]

theorem polarLib_offset (approx : ℚ) (angle : ℚ) :
    sineOffset polarLib approx locale0 angle = 2 := by
  simp [sineOffset, polarLib, zeroLib, locale0, D2R]

theorem polarLib_moment (approx : ℚ) (angle : ℚ) :
    momentFromDepression polarLib approx locale0 angle = none :=
  moment_none _ _ _ _ (by rw [polarLib_offset]; norm_num)

theorem visLib_offset (lib : AstroLib) (hlib : lib = visLib ∨ lib = visLib0)
    (approx : ℚ) (angle : ℚ) : sineOffset lib approx locale0 angle = 2 := by
  rcases hlib with rfl | rfl <;>
    simp [sineOffset, visLib, visLib0, zeroLib, locale0, D2R]

theorem visLib_dusk (lib : AstroLib) (hlib : lib = visLib ∨ lib = visLib0)
    (date : ℚ) (angle : ℚ) : dusk lib date locale0 angle = none := by
  have hm : ∀ a : ℚ, momentFromDepression lib a locale0 angle = none := fun a =>
    moment_none _ _ _ _ (by rw [visLib_offset lib hlib]; norm_num)
  simp only [dusk, hm]
  rfl

/-- Under `visLib` the crescent is reported visible at date 0 although the
dusk feeding the computation was `null` (coerced to `0`). -/
theorem visLib_crescent : Astronomy.isCrescentVisible visLib 0 locale0 = true := by
  have hd := visLib_dusk visLib (Or.inl rfl) ((0:ℚ) - 1) 4.5
  simp only [Astronomy.isCrescentVisible, hd, jsToNumber, Option.getD_none]
  norm_num [Time.universalFromStandard, JD.fromFixed, JD.EPOCH, visLib, zeroLib,
    locale0, D2R, jsModQ]

/-- Under `visLib0` — which differs from `visLib` only in the lunar altitude,
a quantity consumed strictly after the unchecked dusk — the report flips. -/
theorem visLib0_crescent : Astronomy.isCrescentVisible visLib0 0 locale0 = false := by
  have hd := visLib_dusk visLib0 (Or.inr rfl) ((0:ℚ) - 1) 4.5
  simp only [Astronomy.isCrescentVisible, hd, jsToNumber, Option.getD_none]
  norm_num [Time.universalFromStandard, JD.fromFixed, JD.EPOCH, visLib0, visLib, zeroLib,
    locale0, D2R, jsModQ]

theorem stepLib_first_pass :
    momentFromDepression stepLib ((0:ℚ) + 1/4) locale0 0 = none := by
  apply moment_none
  have hs : sineOffset stepLib ((0:ℚ) + 1/4) locale0 0 = 2 := by
    simp only [sineOffset, stepLib, zeroLib, locale0, D2R, Time.universalFromLocal,
      JD.fromFixed, JD.EPOCH]
    norm_num
  rw [hs]
  norm_num

theorem stepLib_dawn : (dawn stepLib (0:ℚ) locale0 0).isSome = true := by
  simp only [dawn, stepLib_first_pass, Option.getD_none]
  have hnot : ¬(1 < |sineOffset stepLib (0:ℚ) locale0 0|) := by
    have hs : sineOffset stepLib (0:ℚ) locale0 0 = 1 := by
      simp only [sineOffset, stepLib, zeroLib, locale0, D2R, Time.universalFromLocal,
        JD.fromFixed, JD.EPOCH]
      norm_num
    rw [hs]
    norm_num
  simp only [momentFromDepression]
  rw [if_neg hnot]
  rfl

/-- The supported-range condition of the French round trip is satisfiable:
under `constLib` the new year on or before any date is fixed date 100, the
condition holds at date 120, and the round trip follows. -/
theorem french_example :
    French.toFixed constLib (French.fromFixed constLib 120).1 1 1
      = French.newYearOnOrBefore constLib 120
    ∧ French.toFixed constLib (French.fromFixed constLib 120).1
        (French.fromFixed constLib 120).2.1 (French.fromFixed constLib 120).2.2 = 120 := by
  have hN : ∀ d : ℤ, French.newYearOnOrBefore constLib d = 100 := by
    intro d
    simp only [French.newYearOnOrBefore, autumnalEquinoxOnOrBefore, JD.toFixed, JD.EPOCH,
      constLib, zeroLib, French.midnightInParis, Time.midnight, Time.standardFromLocal,
      Time.universalFromLocal, Time.standardFromUniversal, Time.universalFromStandard,
      Time.localFromApparent, JD.fromFixed, French.PARIS, ite_self]
    norm_num
  have hH : French.toFixed constLib (French.fromFixed constLib 120).1 1 1
      = French.newYearOnOrBefore constLib 120 := by
    simp only [French.toFixed, hN]
    ring
  exact ⟨hH, french_toFixed_fromFixed constLib 120 hH⟩

-- ------------------------- THE CLAIMS -------------------------

/-- C1: the round-trip law — for every calendar of the system (Egyptian,
Armenian, Gregorian, Julian, Roman, Coptic, Ethiopic, ISO, Islamic, Hebrew,
Persian, French, Modified French, Mayan Long Count) and every integer fixed
date, `toFixed` applied to the components returned by `fromFixed` gives the
date back; for Roman the equality holds on the full 5-tuple including the
leap-day flag, for Persian it holds for every ephemeris, and for the
astronomical French calendar it holds whenever January 1 of the computed year
is the new year on or before the date (the supported range of its new-year
search). -/
theorem claim_C1 :
    (∀ d : ℤ, Egyptian.toFixed (Egyptian.fromFixed d).1 (Egyptian.fromFixed d).2.1
      (Egyptian.fromFixed d).2.2 = d)
    ∧ (∀ d : ℤ, Armenian.toFixed (Armenian.fromFixed d).1 (Armenian.fromFixed d).2.1
      (Armenian.fromFixed d).2.2 = d)
    ∧ (∀ d : ℤ, Gregorian.toFixed (Gregorian.fromFixed d).1 (Gregorian.fromFixed d).2.1
      (Gregorian.fromFixed d).2.2 = d)
    ∧ (∀ d : ℤ, Julian.toFixed (Julian.fromFixed d).1 (Julian.fromFixed d).2.1
      (Julian.fromFixed d).2.2 = d)
    ∧ (∀ d : ℤ, Roman.toFixed (Roman.fromFixed d).1 (Roman.fromFixed d).2.1
      (Roman.fromFixed d).2.2.1 (Roman.fromFixed d).2.2.2.1 (Roman.fromFixed d).2.2.2.2 = d)
    ∧ (∀ d : ℤ, Coptic.toFixed (Coptic.fromFixed d).1 (Coptic.fromFixed d).2.1
      (Coptic.fromFixed d).2.2 = d)
    ∧ (∀ d : ℤ, Ethiopic.toFixed (Ethiopic.fromFixed d).1 (Ethiopic.fromFixed d).2.1
      (Ethiopic.fromFixed d).2.2 = d)
    ∧ (∀ d : ℤ, ISO.toFixed (ISO.fromFixed d).1 (ISO.fromFixed d).2.1
      (ISO.fromFixed d).2.2 = (d : ℚ))
    ∧ (∀ d : ℤ, Islamic.toFixed (Islamic.fromFixed d).1 (Islamic.fromFixed d).2.1
      (Islamic.fromFixed d).2.2 = d)
    ∧ (∀ d : ℤ, Hebrew.toFixed (Hebrew.fromFixed d).1 (Hebrew.fromFixed d).2.1
      (Hebrew.fromFixed d).2.2 = d)
    ∧ (∀ (lib : AstroLib) (d : ℤ), Persian.toFixed lib (Persian.fromFixed lib d).1
      (Persian.fromFixed lib d).2.1 (Persian.fromFixed lib d).2.2 = d)
    ∧ (∀ (lib : AstroLib) (d : ℤ),
      French.toFixed lib (French.fromFixed lib d).1 1 1 = French.newYearOnOrBefore lib d →
      French.toFixed lib (French.fromFixed lib d).1 (French.fromFixed lib d).2.1
        (French.fromFixed lib d).2.2 = d)
    ∧ (∀ d : ℤ, FrenchArith.toFixed (FrenchArith.fromFixed d).1 (FrenchArith.fromFixed d).2.1
      (FrenchArith.fromFixed d).2.2 = d)
    ∧ (∀ d : ℤ, Mayan.LongCount.toFixed (Mayan.LongCount.fromFixed d).1
      (Mayan.LongCount.fromFixed d).2.1 (Mayan.LongCount.fromFixed d).2.2.1
      (Mayan.LongCount.fromFixed d).2.2.2.1 (Mayan.LongCount.fromFixed d).2.2.2.2 = d) :=
  ⟨egyptian_toFixed_fromFixed, armenian_toFixed_fromFixed, gregorian_toFixed_fromFixed,
    julian_toFixed_fromFixed, roman_toFixed_fromFixed, coptic_toFixed_fromFixed,
    ethiopic_toFixed_fromFixed, iso_toFixed_fromFixed, islamic_toFixed_fromFixed,
    hebrew_toFixed_fromFixed, persian_toFixed_fromFixed, french_toFixed_fromFixed,
    frenchArith_toFixed_fromFixed, longCount_toFixed_fromFixed⟩

/-- C2: the conformance vectors, amended.  `Gregorian.toFixed(1970,1,1)` and
`JD.fromFixed(719163)` are as claimed; the Islamic epoch 227015 is
`Julian.toFixed(622,7,16)` (equivalently `Islamic.toFixed(1,1,1)`), not
`Islamic.toFixed(622,7,16)`; and it is `Gregorian.toFixed(0,12,30)` that
equals `-1`, while `Julian.toFixed(0,12,30) = -4`. -/
theorem claim_C2 :
    Gregorian.toFixed 1970 1 1 = 719163
    ∧ JD.fromFixed 719163 = 2440587.5
    ∧ Julian.toFixed 622 7 16 = 227015
    ∧ Islamic.toFixed 1 1 1 = 227015
    ∧ Islamic.EPOCH = 227015
    ∧ Julian.toFixed 0 12 30 = -4
    ∧ Gregorian.toFixed 0 12 30 = -1 := by
  refine ⟨by decide, ?_, by decide, by decide, by decide, by decide, by decide⟩
  norm_num [JD.fromFixed, JD.EPOCH]

/-- C2, counterexample to the claimed vectors: `Islamic.toFixed(622,7,16)`
is 447269, not the epoch, and `Julian.toFixed(0,12,30)` is `-4`, not `-1`. -/
theorem claim_C2_cex :
    Islamic.toFixed 622 7 16 ≠ 227015 ∧ Julian.toFixed 0 12 30 ≠ -1 := by
  decide

/-- C3: whenever the computed sine offset exceeds 1 in absolute value (the sun
never reaches the depression), `momentFromDepression` returns the explicit
no-value result `none`. -/
theorem claim_C3 (lib : AstroLib) (approx : ℚ) (locale : Locality) (angle : ℚ)
    (h : 1 < |sineOffset lib approx locale angle|) :
    momentFromDepression lib approx locale angle = none :=
  moment_none lib approx locale angle h

/-- C3, witness: under the fixture ephemeris `polarLib` the offset is 2 and
the function indeed returns `none`. -/
theorem claim_C3_witness :
    1 < |sineOffset polarLib 0 locale0 0|
    ∧ momentFromDepression polarLib 0 locale0 0 = none := by
  have h : 1 < |sineOffset polarLib 0 locale0 0| := by
    rw [polarLib_offset]
    norm_num
  exact ⟨h, claim_C3 polarLib 0 locale0 0 h⟩

/-- C4, amended: `dawn` (resp. `dusk`) makes a first depression pass at a
quarter-day (resp. three-quarter-day) offset; when that pass returns the
no-value result the second pass is seeded with the fallback `date` (resp.
`date + 0.99`) rather than returning `none`; only a no-value result of the
second pass propagates, and otherwise the standard-time moment of the second
pass is returned. -/
theorem claim_C4 (lib : AstroLib) (date : ℚ) (locale : Locality) (angle : ℚ) :
    (momentFromDepression lib (date + 1/4) locale angle = none →
      dawn lib date locale angle
        = (momentFromDepression lib date locale angle).map
            fun r => Time.standardFromLocal r locale)
    ∧ (∀ x : ℚ, momentFromDepression lib (date + 1/4) locale angle = some x →
      dawn lib date locale angle
        = (momentFromDepression lib x locale angle).map
            fun r => Time.standardFromLocal r locale)
    ∧ (momentFromDepression lib (date + 3/4) locale angle = none →
      dusk lib date locale angle
        = (momentFromDepression lib (date + 99/100) locale angle).map
            fun r => Time.standardFromLocal r locale)
    ∧ (∀ x : ℚ, momentFromDepression lib (date + 3/4) locale angle = some x →
      dusk lib date locale angle
        = (momentFromDepression lib x locale angle).map
            fun r => Time.standardFromLocal r locale)
    ∧ (momentFromDepression lib
          ((momentFromDepression lib (date + 1/4) locale angle).getD date) locale angle = none →
        dawn lib date locale angle = none)
    ∧ (momentFromDepression lib
          ((momentFromDepression lib (date + 3/4) locale angle).getD (date + 99/100))
          locale angle = none →
        dusk lib date locale angle = none) := by
  refine ⟨fun h => ?_, fun x h => ?_, fun h => ?_, fun x h => ?_, fun h => ?_, fun h => ?_⟩
  · simp only [dawn, h, Option.getD_none]
  · simp only [dawn, h, Option.getD_some]
  · simp only [dusk, h, Option.getD_none]
  · simp only [dusk, h, Option.getD_some]
  · simp only [dawn, h]
    rfl
  · simp only [dusk, h]
    rfl

/-- C4, counterexample to the original claim: under `stepLib` the first dawn
pass returns the no-value result, yet `dawn` still returns a value (the
fallback seed succeeded). -/
theorem claim_C4_cex :
    momentFromDepression stepLib ((0:ℚ) + 1/4) locale0 0 = none
    ∧ (dawn stepLib (0:ℚ) locale0 0).isSome = true :=
  ⟨stepLib_first_pass, stepLib_dawn⟩

/-- C5: `isCrescentVisible` does not check the no-value result of the dusk of
the preceding day: under both `visLib` and `visLib0` that dusk is `none`, yet
the visibility verdict depends on the lunar altitude — a quantity computed
strictly after the dusk — so the absent value (coerced to `0` as JavaScript
does) flows into the astronomical arithmetic instead of short-circuiting. -/
theorem claim_C5_cex :
    dusk visLib ((0:ℚ) - 1) locale0 4.5 = none
    ∧ dusk visLib0 ((0:ℚ) - 1) locale0 4.5 = none
    ∧ Astronomy.isCrescentVisible visLib 0 locale0 = true
    ∧ Astronomy.isCrescentVisible visLib0 0 locale0 = false :=
  ⟨visLib_dusk visLib (Or.inl rfl) _ _, visLib_dusk visLib0 (Or.inr rfl) _ _,
    visLib_crescent, visLib0_crescent⟩

/-- C6: the Calendar-Round pair Haab (18,8) / Tzolkin (4,20) actually occurs
(both hold at the Long Count epoch itself), yet `roundOnOrBefore` returns the
no-value result for it; and for the pair (18,8)/(4,4), which never occurs, it
returns a date whose Haab designation is not (18,8).  The congruence it tests
slips both cycle counts by `LongCount.EPOCH` instead of the cycles' own
epochs. -/
theorem claim_C6_cex :
    Mayan.Haab.fromFixed Mayan.LongCount.EPOCH = (18, 8)
    ∧ Mayan.Tzolkin.fromFixed Mayan.LongCount.EPOCH = (4, 20)
    ∧ Mayan.roundOnOrBefore 18 8 4 20 Mayan.LongCount.EPOCH = none
    ∧ Mayan.roundOnOrBefore 18 8 4 4 Mayan.LongCount.EPOCH
        = some (Mayan.LongCount.EPOCH - 11697)
    ∧ Mayan.Haab.fromFixed (Mayan.LongCount.EPOCH - 11697) ≠ (18, 8) := by
  decide

/-- C8: every Hebrew year length `newYear (y+1) - newYear y` is one of 353,
354, 355, 383, 384 or 385 days, and the dehiyyot are checked via elapsed-day
deltas: a delta of 356 to the next year postpones by 2 days, otherwise a
delta of 382 from the previous year postpones by 1 day. -/
theorem claim_C8 (y : ℤ) :
    (Hebrew.newYear (y+1) - Hebrew.newYear y = 353
      ∨ Hebrew.newYear (y+1) - Hebrew.newYear y = 354
      ∨ Hebrew.newYear (y+1) - Hebrew.newYear y = 355
      ∨ Hebrew.newYear (y+1) - Hebrew.newYear y = 383
      ∨ Hebrew.newYear (y+1) - Hebrew.newYear y = 384
      ∨ Hebrew.newYear (y+1) - Hebrew.newYear y = 385)
    ∧ (Hebrew.elapsedDays (y+1) - Hebrew.elapsedDays y = 356 → Hebrew.newYearDelay y = 2)
    ∧ (Hebrew.elapsedDays (y+1) - Hebrew.elapsedDays y ≠ 356 →
        Hebrew.elapsedDays y - Hebrew.elapsedDays (y-1) = 382 → Hebrew.newYearDelay y = 1) := by
  refine ⟨?_, fun h => ?_, fun h1 h2 => ?_⟩
  · have hm := Hebrew.daysInYear_mem y
    simpa [Hebrew.daysInYear] using hm
  · simp only [Hebrew.newYearDelay]
    rw [if_pos h]
  · simp only [Hebrew.newYearDelay]
    rw [if_neg h1, if_pos h2]

/-- C9: the weekday of a fixed date has period 7, and `weekdayOnOrBefore d k`
lands within the window of seven days ending at `d`. -/
theorem claim_C9 (d : ℚ) (k : ℤ) :
    getWeekday (d + 7) = getWeekday d
    ∧ weekdayOnOrBefore d k ≤ d
    ∧ d < weekdayOnOrBefore d k + 7 :=
  ⟨getWeekday_period d, (weekdayOnOrBefore_bounds d k).1, (weekdayOnOrBefore_bounds d k).2⟩

/-- C10: `phasisOnOrBefore` searches at most 30 candidate days from `tau` and
returns the first on which the crescent is visible; when none of the 30 is
visible it silently returns `tau + 29` — never a no-value result. -/
theorem claim_C10 (lib : AstroLib) (date : ℤ) (locale : Locality) :
    (Astronomy.phasisOnOrBefore lib date locale = Astronomy.phasisTau lib date locale + 29
      ∧ ∀ j : ℕ, j < 30 →
          Astronomy.isCrescentVisible lib
            ((Astronomy.phasisTau lib date locale : ℚ) + j) locale = false)
    ∨ (∃ j : ℕ, j < 30
        ∧ Astronomy.phasisOnOrBefore lib date locale = Astronomy.phasisTau lib date locale + j
        ∧ Astronomy.isCrescentVisible lib
            ((Astronomy.phasisTau lib date locale : ℚ) + j) locale = true
        ∧ ∀ k : ℕ, k < j →
            Astronomy.isCrescentVisible lib
              ((Astronomy.phasisTau lib date locale : ℚ) + k) locale = false) := by
  have h := Astronomy.crescentLoop_spec lib locale (Astronomy.phasisTau lib date locale) 29 0 rfl
  simp only [Astronomy.phasisOnOrBefore]
  rcases h with ⟨h1, h2⟩ | ⟨j, hj1, hj2, hj3, hj4, hj5⟩
  · exact Or.inl ⟨h1, fun j hja => h2 j (Nat.zero_le _) hja⟩
  · exact Or.inr ⟨j, hj2, hj3, hj4, fun k hk => hj5 k (Nat.zero_le _) hk⟩

end Calendars
